import Mathlib

set_option maxRecDepth 8000

/-!
Verification development for the cApps-substrate channel pallets
(single-gomoku, multi-gomoku, single-session-app, multi-session-app).

Each pallet's extrinsics are embedded as pure Lean functions.  Storage is
modelled as the `Option info` slot of the one channel id an operation
touches; every operation returns the dispatch result together with the
slot's value after the call, updating the slot exactly where the source
calls `insert`/`mutate`.  Machine integers (`u8`, `u16`, `u128`, block
numbers) are modelled as `Nat`, with the explicit `as u8` / `as i8` casts
of the source carried over as `% 256` arithmetic.  A Rust `panic`
(out-of-bounds indexing, `unwrap` of `None`, `usize` underflow) is the
`Res.crash` outcome, distinct from a dispatch error `Res.err`.

Signature verification (`T::Signature: Verify`) and SCALE encoding
(`codec::Encode`) are host-environment primitives outside the pallet
sources; they are passed in as function parameters `vf` (verify) and
`enc` (canonical encoding of an app state), exactly where the source
calls `sig.verify(encoded, signer)` on `encoded = encode_app_state(..)`.
-/

namespace Celer

/-- Outcome of a dispatchable or internal helper: `ok`, a dispatch
error carrying the source's error string / variant name, or `crash`
for a Rust panic (out-of-bounds index, `unwrap` on `None`, underflow). -/
inductive Res (α : Type) where
  | ok : α → Res α
  | err : String → Res α
  | crash : Res α
deriving DecidableEq

/-- Channel status enum; the four pallets declare identical copies
(`AppStatus` / `SessionStatus`) with the same four variants. -/
inductive AppStatus where
  | Idle
  | Settle
  | Action
  | Finalized
deriving DecidableEq

/-- Rust `as u8` cast from a wider unsigned value. -/
def u8 (n : Nat) : Nat := n % 256

/-- Rust `as i8` reinterpretation of a `u8` value (two's complement). -/
def i8OfU8 (n : Nat) : Int :=
  if n % 256 < 128 then ((n % 256 : Nat) : Int) else ((n % 256 : Nat) : Int) - 256

/-- Wrap an integer into the `i8` range, modelling wrapping `i8` ops. -/
def wrapI8 (z : Int) : Int := (z + 128) % 256 - 128

/-- Rust `as u8` cast of an `i8` value (two's complement). -/
def u8OfI8 (z : Int) : Nat := (z % 256).toNat

/-- Gomoku: `check_boundary`, identical in both gomoku pallets. -/
def check_boundary (x y : Nat) : Bool := x < 15 && y < 15

/-- Gomoku: `state_index`; `off` is the header length (2 for
single-gomoku, 3 for multi-gomoku). -/
def state_index (off x y : Nat) : Nat := off + 15 * x + y

/-- The probed coordinate `(_x as i8 + _xdir * count as i8) as u8`
from `count_stone`. -/
def probe (c : Nat) (dir : Int) (count : Nat) : Nat :=
  u8OfI8 (wrapI8 (i8OfU8 c + wrapI8 (dir * i8OfU8 count)))

/-- The `while count <= 5` loop of `count_stone`.  The loop body runs at
most five times, so fuel `6` makes the fuel-exhaustion branch
unreachable.  Returning `Res.ok none` models the source's `return None`
after the loop; `Res.crash` models an out-of-bounds board index. -/
def count_stone_go (off : Nat) (b : List Nat) (ox oy : Nat) (dx dy : Int) :
    Nat → Nat → Res (Option Nat)
  | _, 0 => Res.crash
  | count, fuel + 1 =>
    if count ≤ 5 then
      let x := probe ox dx count
      let y := probe oy dy count
      if check_boundary x y then
        match b.get? (state_index off x y), b.get? (state_index off ox oy) with
        | some v, some w =>
          if v = w then count_stone_go off b ox oy dx dy (count + 1) fuel
          else Res.ok (some count)
        | _, _ => Res.crash
      else Res.ok (some count)
    else Res.ok none

/-- Gomoku `count_stone`, identical in both gomoku pallets up to the
header offset. -/
def count_stone (off : Nat) (b : List Nat) (x y : Nat) (dx dy : Int) :
    Res (Option Nat) :=
  count_stone_go off b x y dx dy 1 6

/-- Gomoku `check_five`: both `count_stone` results are `unwrap`ped, so
a `None` count (five further matching stones in one direction) panics,
modelled as `Res.crash`. -/
def check_five (off : Nat) (b : List Nat) (x y : Nat) (dx dy : Int) : Res Bool :=
  match count_stone off b x y dx dy with
  | Res.ok (some c1) =>
    match count_stone off b x y (wrapI8 (-1 * dx)) (wrapI8 (-1 * dy)) with
    | Res.ok (some c2) => Res.ok (decide (5 ≤ c1 + (c2 - 1)))
    | _ => Res.crash
  | _ => Res.crash

/-- The four-axis short-circuit `||` chain of `check_five` calls in
`update_by_action` of both gomoku pallets. -/
def check_five_dirs (off : Nat) (b : List Nat) (x y : Nat) : Res Bool :=
  match check_five off b x y 1 0 with
  | Res.ok true => Res.ok true
  | Res.ok false =>
    match check_five off b x y 0 1 with
    | Res.ok true => Res.ok true
    | Res.ok false =>
      match check_five off b x y 1 1 with
      | Res.ok true => Res.ok true
      | Res.ok false => check_five off b x y 1 (-1)
      | r => r
    | r => r
  | r => r

/-- Rust `Vec` index assignment `b[i] = v`: panics when out of bounds. -/
def set_at (b : List Nat) (i v : Nat) : Res (List Nat) :=
  if i < b.length then Res.ok (b.set i v) else Res.crash

/-- Shared loop of `valid_signers` in the two multi pallets:
`for i in 0..signers.len() { ensure!(signatures[i].verify(encoded, &signers[i]), ...) }`.
The loop counter is split into the current index `i` and the number
`fuel = signers.len() - i` of remaining iterations so that the
recursion is structural. -/
def valid_signers_go {A S : Type} (vf : S → List Nat → A → Bool)
    (signatures : List S) (encoded : List Nat) (signers : List A) :
    Nat → Nat → Res Unit
  | _, 0 => Res.ok ()
  | i, fuel + 1 =>
    match signatures.get? i with
    | none => Res.crash
    | some s =>
      match signers.get? i with
      | none => Res.crash
      | some p =>
        if vf s encoded p then
          valid_signers_go vf signatures encoded signers (i + 1) fuel
        else Res.err "Check co-sigs failed"

/-- Entry point of the shared `valid_signers` loop. -/
def valid_signers_loop {A S : Type} (vf : S → List Nat → A → Bool)
    (signatures : List S) (encoded : List Nat) (signers : List A) : Res Unit :=
  valid_signers_go vf signatures encoded signers 0 signers.length

/-- Shared loop of `is_ordered_account` in the two multi pallets.  Note
the source compares `prev` against `players[1]` (not `players[i]`) on
every iteration.  The loop counter is split into the index `i` and the
remaining iteration count `fuel = players.len() - i` so that the
recursion is structural. -/
def is_ordered_go {A : Type} [LinearOrder A] (players : List A) :
    A → Nat → Nat → Res Unit
  | _, _, 0 => Res.ok ()
  | prev, i, fuel + 1 =>
    match players.get? 1 with
    | none => Res.crash
    | some p1 =>
      if prev < p1 then
        match players.get? i with
        | none => Res.crash
        | some pi => is_ordered_go players pi (i + 1) fuel
      else Res.err "player is not ascending order"

/-- Entry point of the shared `is_ordered_account` loop (`for i in 1..players.len()`). -/
def is_ordered_loop {A : Type} [LinearOrder A] (players : List A)
    (prev : A) : Res Unit :=
  is_ordered_go players prev 1 (players.length - 1)

end Celer

namespace Celer.SG

/-- single-gomoku `AppState`. -/
structure AppState (H : Type) where
  nonce : Nat
  seq_num : Nat
  board_state : List Nat
  timeout : Nat
  session_id : H
deriving DecidableEq

/-- single-gomoku `StateProof`. -/
structure StateProof (H S : Type) where
  app_state : AppState H
  sigs : List S
deriving DecidableEq

/-- single-gomoku `StateKey`. -/
inductive StateKey where
  | Turn
  | Winner
  | FullState
deriving DecidableEq

/-- single-gomoku `GomokuState`. -/
structure GomokuState where
  board_state : Option (List Nat)
  stone_num : Option Nat
  stone_num_onchain : Option Nat
  state_key : Option StateKey
  min_stone_offchain : Nat
  max_stone_onchain : Nat
deriving DecidableEq

/-- single-gomoku `GomokuInfo`. -/
structure GomokuInfo (A : Type) where
  nonce : Nat
  players : List A
  seq_num : Nat
  timeout : Nat
  deadline : Nat
  status : AppStatus
  gomoku_state : GomokuState
deriving DecidableEq

/-- single-gomoku `AppInitiateRequest`. -/
structure AppInitiateRequest (A : Type) where
  nonce : Nat
  players : List A
  timeout : Nat
  min_stone_offchain : Nat
  max_stone_onchain : Nat
deriving DecidableEq

variable {A S H : Type} [LinearOrder A]

/-- single-gomoku `valid_signers`: positional check of `signatures[0]`
against `signers[0]` and `signatures[1]` against `signers[1]`; a
missing signature or signer is an index panic. -/
def valid_signers (vf : S → List Nat → A → Bool) (signatures : List S)
    (encoded : List Nat) (signers : List A) : Res Unit :=
  match signatures.get? 0, signers.get? 0 with
  | some s0, some p0 =>
    if vf s0 encoded p0 then
      match signatures.get? 1, signers.get? 1 with
      | some s1, some p1 =>
        if vf s1 encoded p1 then Res.ok () else Res.err "Check co-sigs failed"
      | _, _ => Res.crash
    else Res.err "Check co-sigs failed"
  | _, _ => Res.crash

/-- single-gomoku `intend_settle`. -/
def intend_settle (vf : S → List Nat → A → Bool) (enc : AppState H → List Nat)
    (gomoku_info : GomokuInfo A) (state_proof : StateProof H S) (now : Nat) :
    Res (GomokuInfo A) :=
  let app_state := state_proof.app_state
  let encoded := enc app_state
  match valid_signers vf state_proof.sigs encoded gomoku_info.players with
  | Res.ok _ =>
    if gomoku_info.status ≠ AppStatus.Finalized then
      if app_state.nonce = gomoku_info.nonce then
        if gomoku_info.seq_num < app_state.seq_num then
          Res.ok { gomoku_info with
            seq_num := app_state.seq_num,
            deadline := now + gomoku_info.timeout,
            status := AppStatus.Settle }
        else Res.err "invalid sequence number"
      else Res.err "nonce not match"
    else Res.err "app state is finalized"
  | Res.err e => Res.err e
  | Res.crash => Res.crash

/-- single-gomoku `apply_action` (the pure helper on `GomokuInfo`). -/
def apply_action (gomoku_info : GomokuInfo A) (now : Nat) : Res (GomokuInfo A) :=
  if gomoku_info.status ≠ AppStatus.Finalized then
    if gomoku_info.status = AppStatus.Settle ∧ gomoku_info.deadline < now then
      Res.ok { gomoku_info with
        seq_num := gomoku_info.seq_num + 1,
        deadline := now + gomoku_info.timeout,
        status := AppStatus.Action }
    else
      if gomoku_info.status = AppStatus.Action then
        Res.ok { gomoku_info with
          seq_num := gomoku_info.seq_num + 1,
          deadline := now + gomoku_info.timeout,
          status := AppStatus.Action }
      else Res.err "app not in action mode"
  else Res.err "app state is finalized"

/-- single-gomoku `win_game`. -/
def win_game (winner : Nat) (gomoku_info : GomokuInfo A) : Res (GomokuInfo A) :=
  if winner ≤ 2 then
    let board0 := gomoku_info.gomoku_state.board_state.getD (List.replicate 227 0)
    match set_at board0 0 winner with
    | Res.ok board1 =>
      if winner ≠ 0 then
        match set_at board1 1 0 with
        | Res.ok board2 =>
          Res.ok { gomoku_info with
            status := AppStatus.Finalized,
            gomoku_state := { gomoku_info.gomoku_state with board_state := some board2 } }
        | _ => Res.crash
      else
        Res.ok { gomoku_info with
          gomoku_state := { gomoku_info.gomoku_state with board_state := some board1 } }
    | _ => Res.crash
  else Res.err "invalid winner state"

/-- single-gomoku `app_initiate`.  `store` is the storage slot at the
derived session id; `get_session_id` indexes `players[0]` and
`players[1]` before any check, so fewer than two players is a panic. -/
def app_initiate (initiate_request : AppInitiateRequest A)
    (store : Option (GomokuInfo A)) : Res Unit × Option (GomokuInfo A) :=
  match initiate_request.players.get? 0, initiate_request.players.get? 1 with
  | some p0, some p1 =>
    if store.isSome then (Res.err "AppId already exists", store)
    else if initiate_request.players.length = 2 then
      if p0 < p1 then
        (Res.ok (), some {
          nonce := initiate_request.nonce,
          players := initiate_request.players,
          seq_num := 0,
          timeout := initiate_request.timeout,
          deadline := 0,
          status := AppStatus.Idle,
          gomoku_state := {
            board_state := none,
            stone_num := none,
            stone_num_onchain := none,
            state_key := none,
            min_stone_offchain := initiate_request.min_stone_offchain,
            max_stone_onchain := initiate_request.max_stone_onchain } })
      else (Res.err "players is not asscending order", store)
    else (Res.err "invalid player length", store)
  | _, _ => (Res.crash, store)

/-- single-gomoku `update_by_state`.  The `let count = 0;` binding of
the source is shadowed inside the winnerless branch, so the stored
`stone_num` is always `Some(0)`. -/
def update_by_state (vf : S → List Nat → A → Bool) (enc : AppState H → List Nat)
    (state_proof : StateProof H S) (now : Nat) (store : Option (GomokuInfo A)) :
    Res Unit × Option (GomokuInfo A) :=
  match store with
  | none => (Res.err "SingleGomokuInfoNotExist", store)
  | some gomoku_info =>
    match intend_settle vf enc gomoku_info state_proof now with
    | Res.err e => (Res.err e, store)
    | Res.crash => (Res.crash, store)
    | Res.ok new1 =>
      let st := state_proof.app_state.board_state
      if st.length = 227 then
        let count : Nat := 0
        match st.get? 0 with
        | none => (Res.crash, store)
        | some w0 =>
          if w0 ≠ 0 then
            match win_game w0 new1 with
            | Res.ok new2 =>
              (Res.ok (), some { new2 with gomoku_state :=
                { new2.gomoku_state with board_state := some st, stone_num := some count } })
            | Res.err e => (Res.err e, store)
            | Res.crash => (Res.crash, store)
          else
            let count1 := u8 ((st.drop 3).filter (fun v => v ≠ 0)).length
            if new1.gomoku_state.min_stone_offchain ≤ count1 then
              (Res.ok (), some { new1 with gomoku_state :=
                { new1.gomoku_state with board_state := some st, stone_num := some count } })
            else (Res.err "not enough offchain stones", store)
      else (Res.err "invalid board state length", store)

/-- single-gomoku `update_by_action`. -/
def update_by_action (caller : A) (action : List Nat) (now : Nat)
    (store : Option (GomokuInfo A)) : Res Unit × Option (GomokuInfo A) :=
  match store with
  | none => (Res.err "SingleGomokuInfoNotExist", store)
  | some gomoku_info =>
    match apply_action gomoku_info now with
    | Res.err e => (Res.err e, store)
    | Res.crash => (Res.crash, store)
    | Res.ok new1 =>
      let gs := new1.gomoku_state
      let board := gs.board_state.getD (List.replicate 227 0)
      match board.get? 1 with
      | none => (Res.crash, store)
      | some turn =>
        if turn = 0 then (Res.crash, store)
        else
          match new1.players.get? (turn - 1) with
          | none => (Res.crash, store)
          | some p =>
            if caller = p then
              match action.get? 0, action.get? 1 with
              | some x, some y =>
                if check_boundary x y then
                  match board.get? (state_index 2 x y) with
                  | none => (Res.crash, store)
                  | some cell =>
                    if cell = 0 then
                      let board1 := board.set (state_index 2 x y) turn
                      let new_stone_num := gs.stone_num.getD 0 + 1
                      let new_stone_num_onchain := gs.stone_num_onchain.getD 0 + 1
                      let new2 : GomokuInfo A := { new1 with gomoku_state :=
                        { board_state := some board1,
                          stone_num := some new_stone_num,
                          stone_num_onchain := some new_stone_num_onchain,
                          state_key := gs.state_key,
                          min_stone_offchain := gs.min_stone_offchain,
                          max_stone_onchain := gs.max_stone_onchain } }
                      match check_five_dirs 2 board1 x y with
                      | Res.ok true =>
                        match win_game turn new2 with
                        | Res.ok w => (Res.ok (), some w)
                        | Res.err e => (Res.err e, store)
                        | Res.crash => (Res.crash, store)
                      | Res.ok false =>
                        if new_stone_num = 225 ∨
                            gs.max_stone_onchain < u8 new_stone_num_onchain then
                          (Res.ok (), some { new2 with
                            status := AppStatus.Finalized,
                            gomoku_state := { new2.gomoku_state with
                              board_state := some (board1.set 1 0) } })
                        else
                          (Res.ok (), some { new2 with gomoku_state :=
                            { new2.gomoku_state with
                              board_state := some (board1.set 1 (if turn = 1 then 2 else 1)) } })
                      | _ => (Res.crash, store)
                    else (Res.err "slot is occupied", store)
                else (Res.err "out of boundary", store)
              | _, _ => (Res.crash, store)
            else (Res.err "not your turn", store)

/-- Shared tail of single-gomoku `finalize_on_action_timeout` once a
deadline has been found elapsed. -/
def finalize_due (gomoku_info : GomokuInfo A) : Res Unit × Option (GomokuInfo A) :=
  match gomoku_info.gomoku_state.board_state with
  | none => (Res.err "EmptyBoardState", some gomoku_info)
  | some bs =>
    match bs.get? 1 with
    | none => (Res.crash, some gomoku_info)
    | some t =>
      if t = 1 then
        match win_game 2 gomoku_info with
        | Res.ok w => (Res.ok (), some w)
        | Res.err e => (Res.err e, some gomoku_info)
        | Res.crash => (Res.crash, some gomoku_info)
      else if t = 2 then
        match win_game 1 gomoku_info with
        | Res.ok w => (Res.ok (), some w)
        | Res.err e => (Res.err e, some gomoku_info)
        | Res.crash => (Res.crash, some gomoku_info)
      else (Res.ok (), some gomoku_info)

/-- single-gomoku `finalize_on_action_timeout`. -/
def finalize_on_action_timeout (now : Nat) (store : Option (GomokuInfo A)) :
    Res Unit × Option (GomokuInfo A) :=
  match store with
  | none => (Res.err "SingleGomokuInfoNotExist", store)
  | some gomoku_info =>
    if gomoku_info.status = AppStatus.Action then
      if gomoku_info.deadline < now then finalize_due gomoku_info
      else (Res.err "deadline no passes", store)
    else if gomoku_info.status = AppStatus.Settle then
      if gomoku_info.deadline + gomoku_info.timeout < now then finalize_due gomoku_info
      else (Res.err "while settling", store)
    else (Res.ok (), store)

end Celer.SG

namespace Celer.SS

/-- single-session-app `AppState`. -/
structure AppState (H : Type) where
  nonce : Nat
  seq_num : Nat
  state : Nat
  timeout : Nat
  app_id : H
deriving DecidableEq

/-- single-session-app `StateProof`. -/
structure StateProof (H S : Type) where
  app_state : AppState H
  sigs : List S
deriving DecidableEq

/-- single-session-app `AppInfo`. -/
structure AppInfo (A : Type) where
  state : Nat
  nonce : Nat
  players : List A
  seq_num : Nat
  timeout : Nat
  deadline : Nat
  status : AppStatus
deriving DecidableEq

/-- single-session-app `AppInitiateRequest`. -/
structure AppInitiateRequest (A : Type) where
  nonce : Nat
  players : List A
  timeout : Nat
deriving DecidableEq

variable {A S H : Type} [LinearOrder A]

/-- single-session-app `valid_signers`: the two signatures must verify
against the two players in either assignment order; `signatures[0]`,
`signatures[1]`, `signers[0]`, `signers[1]` are all indexed, so a
missing one is a panic. -/
def valid_signers (vf : S → List Nat → A → Bool) (signatures : List S)
    (encoded : List Nat) (signers : List A) : Res Unit :=
  match signatures.get? 0, signatures.get? 1 with
  | some s1, some s2 =>
    match signers.get? 0, signers.get? 1 with
    | some p0, some p1 =>
      if (vf s1 encoded p0 && vf s2 encoded p1) ||
          (vf s1 encoded p1 && vf s2 encoded p0) then Res.ok ()
      else Res.err "Check co-sigs failed"
    | _, _ => Res.crash
  | _, _ => Res.crash

/-- single-session-app `intend_settle` (it reads the storage slot itself). -/
def intend_settle (vf : S → List Nat → A → Bool) (enc : AppState H → List Nat)
    (state_proof : StateProof H S) (now : Nat) (store : Option (AppInfo A)) :
    Res (AppInfo A) :=
  let app_state := state_proof.app_state
  match store with
  | none => Res.err "AppInfoNotExist"
  | some app_info =>
    match valid_signers vf state_proof.sigs (enc app_state) app_info.players with
    | Res.ok _ =>
      if app_info.status ≠ AppStatus.Finalized then
        if app_state.nonce = app_info.nonce then
          if app_info.seq_num < app_state.seq_num then
            Res.ok { app_info with
              seq_num := app_state.seq_num,
              deadline := now + app_info.timeout,
              status := AppStatus.Settle }
          else Res.err "invalid sequence number"
        else Res.err "nonce not match"
      else Res.err "app state is finalized"
    | Res.err e => Res.err e
    | Res.crash => Res.crash

/-- single-session-app `apply_action` (it reads the storage slot itself). -/
def apply_action (now : Nat) (store : Option (AppInfo A)) : Res (AppInfo A) :=
  match store with
  | none => Res.err "AppInfoNotExist"
  | some app_info =>
    if app_info.status ≠ AppStatus.Finalized then
      if app_info.status = AppStatus.Settle ∧ app_info.deadline < now then
        Res.ok { app_info with
          seq_num := app_info.seq_num + 1,
          deadline := now + app_info.timeout,
          status := AppStatus.Action }
      else
        if app_info.status = AppStatus.Action then
          Res.ok { app_info with
            seq_num := app_info.seq_num + 1,
            deadline := now + app_info.timeout,
            status := AppStatus.Action }
        else Res.err "app not in action mode"
    else Res.err "app state is finalized"

/-- single-session-app `app_initiate`; `get_app_id` indexes
`players[0]` and `players[1]` before the existence check. -/
def app_initiate (initiate_request : AppInitiateRequest A)
    (store : Option (AppInfo A)) : Res Unit × Option (AppInfo A) :=
  match initiate_request.players.get? 0, initiate_request.players.get? 1 with
  | some _, some _ =>
    if store.isSome then (Res.err "AppId alreads exists", store)
    else
      (Res.ok (), some {
        state := 0,
        nonce := initiate_request.nonce,
        players := initiate_request.players,
        seq_num := 0,
        timeout := initiate_request.timeout,
        deadline := 0,
        status := AppStatus.Idle })
  | _, _ => (Res.crash, store)

/-- single-session-app `update_by_state`. -/
def update_by_state (vf : S → List Nat → A → Bool) (enc : AppState H → List Nat)
    (state_proof : StateProof H S) (now : Nat) (store : Option (AppInfo A)) :
    Res Unit × Option (AppInfo A) :=
  match intend_settle vf enc state_proof now store with
  | Res.err e => (Res.err e, store)
  | Res.crash => (Res.crash, store)
  | Res.ok new1 =>
    let state := state_proof.app_state.state
    if state = 1 ∨ state = 2 then
      (Res.ok (), some { new1 with state := state, status := AppStatus.Finalized })
    else
      (Res.ok (), some { new1 with state := state })

/-- single-session-app `update_by_action`. -/
def update_by_action (action : Nat) (now : Nat) (store : Option (AppInfo A)) :
    Res Unit × Option (AppInfo A) :=
  match apply_action now store with
  | Res.err e => (Res.err e, store)
  | Res.crash => (Res.crash, store)
  | Res.ok new1 =>
    if action = 1 ∨ action = 2 then
      (Res.ok (), some { new1 with status := AppStatus.Finalized })
    else (Res.ok (), some new1)

/-- single-session-app `finalize_on_action_timeout`. -/
def finalize_on_action_timeout (now : Nat) (store : Option (AppInfo A)) :
    Res Unit × Option (AppInfo A) :=
  match store with
  | none => (Res.err "AppInfoNotExist", store)
  | some app_info =>
    if app_info.status = AppStatus.Action then
      if app_info.deadline < now then
        (Res.ok (), some { app_info with status := AppStatus.Finalized })
      else (Res.err "deadline no passes", store)
    else if app_info.status = AppStatus.Settle then
      if app_info.deadline + app_info.timeout < now then
        (Res.ok (), some { app_info with status := AppStatus.Finalized })
      else (Res.err "while setting", store)
    else (Res.ok (), store)

end Celer.SS

namespace Celer.MS

/-- multi-session-app `AppState` (no nonce field). -/
structure AppState (H : Type) where
  seq_num : Nat
  state : Nat
  timeout : Nat
  session_id : H
deriving DecidableEq

/-- multi-session-app `StateProof`. -/
structure StateProof (H S : Type) where
  app_state : AppState H
  sigs : List S
deriving DecidableEq

/-- multi-session-app `SessionInfo`. -/
structure SessionInfo (A : Type) where
  state : Nat
  players : List A
  player_num : Nat
  seq_num : Nat
  timeout : Nat
  deadline : Nat
  status : AppStatus
deriving DecidableEq

/-- multi-session-app `SessionInitiateRequest`. -/
structure SessionInitiateRequest (A : Type) where
  nonce : Nat
  player_num : Nat
  players : List A
  timeout : Nat
deriving DecidableEq

variable {A S H : Type} [LinearOrder A]

/-- multi-session-app `valid_signers`. -/
def valid_signers (vf : S → List Nat → A → Bool) (signatures : List S)
    (encoded : List Nat) (signers : List A) : Res Unit :=
  valid_signers_loop vf signatures encoded signers

/-- multi-session-app `is_ordered_account`; `players[0]` is indexed
before the loop. -/
def is_ordered_account (players : List A) : Res Unit :=
  match players.get? 0 with
  | none => Res.crash
  | some p0 => is_ordered_loop players p0

/-- multi-session-app `intend_settle`. -/
def intend_settle (vf : S → List Nat → A → Bool) (enc : AppState H → List Nat)
    (session_info : SessionInfo A) (state_proof : StateProof H S) (now : Nat) :
    Res (SessionInfo A) :=
  let app_state := state_proof.app_state
  if u8 state_proof.sigs.length = session_info.player_num then
    match valid_signers vf state_proof.sigs (enc app_state) session_info.players with
    | Res.ok _ =>
      if session_info.status ≠ AppStatus.Finalized then
        if session_info.seq_num < app_state.seq_num then
          Res.ok { session_info with
            seq_num := app_state.seq_num,
            deadline := now + session_info.timeout,
            status := AppStatus.Settle }
        else Res.err "invalid sequence number"
      else Res.err "app state is finalized"
    | Res.err e => Res.err e
    | Res.crash => Res.crash
  else Res.err "invalid number of players"

/-- multi-session-app `apply_action` (pure helper on `SessionInfo`). -/
def apply_action (session_info : SessionInfo A) (now : Nat) : Res (SessionInfo A) :=
  if session_info.status ≠ AppStatus.Finalized then
    if session_info.status = AppStatus.Settle ∧ session_info.deadline < now then
      Res.ok { session_info with
        seq_num := session_info.seq_num + 1,
        deadline := now + session_info.timeout,
        status := AppStatus.Action }
    else
      if session_info.status = AppStatus.Action then
        Res.ok { session_info with
          seq_num := session_info.seq_num + 1,
          deadline := now + session_info.timeout,
          status := AppStatus.Action }
      else Res.err "app not in action mode"
  else Res.err "app state is finalized"

/-- multi-session-app `session_initiate`. -/
def session_initiate (initiate_request : SessionInitiateRequest A)
    (store : Option (SessionInfo A)) : Res Unit × Option (SessionInfo A) :=
  if store.isSome then (Res.err "session_id is used", store)
  else
    match is_ordered_account initiate_request.players with
    | Res.ok _ =>
      (Res.ok (), some {
        state := 0,
        players := initiate_request.players,
        player_num := initiate_request.player_num,
        seq_num := 0,
        timeout := initiate_request.timeout,
        deadline := 0,
        status := AppStatus.Idle })
    | Res.err e => (Res.err e, store)
    | Res.crash => (Res.crash, store)

/-- multi-session-app `update_by_state`. -/
def update_by_state (vf : S → List Nat → A → Bool) (enc : AppState H → List Nat)
    (state_proof : StateProof H S) (now : Nat) (store : Option (SessionInfo A)) :
    Res Unit × Option (SessionInfo A) :=
  match store with
  | none => (Res.err "SessionInfoNotExist", store)
  | some session_info =>
    match intend_settle vf enc session_info state_proof now with
    | Res.err e => (Res.err e, store)
    | Res.crash => (Res.crash, store)
    | Res.ok new1 =>
      let state := state_proof.app_state.state
      if state = 1 ∨ state = 2 then
        (Res.ok (), some { new1 with state := state, status := AppStatus.Finalized })
      else
        (Res.ok (), some { new1 with state := state })

/-- multi-session-app `update_by_action`. -/
def update_by_action (action : Nat) (now : Nat) (store : Option (SessionInfo A)) :
    Res Unit × Option (SessionInfo A) :=
  match store with
  | none => (Res.err "SessionInfoNotExist", store)
  | some session_info =>
    match apply_action session_info now with
    | Res.err e => (Res.err e, store)
    | Res.crash => (Res.crash, store)
    | Res.ok new1 =>
      if action = 1 ∨ action = 2 then
        (Res.ok (), some { new1 with status := AppStatus.Finalized })
      else (Res.ok (), some new1)

/-- multi-session-app `finalize_on_action_timeout`. -/
def finalize_on_action_timeout (now : Nat) (store : Option (SessionInfo A)) :
    Res Unit × Option (SessionInfo A) :=
  match store with
  | none => (Res.err "SessionInfoNotExist", store)
  | some session_info =>
    if session_info.status = AppStatus.Action then
      if session_info.deadline < now then
        (Res.ok (), some { session_info with status := AppStatus.Finalized })
      else (Res.err "deadline does not passes", store)
    else if session_info.status = AppStatus.Settle then
      if session_info.deadline + session_info.timeout < now then
        (Res.ok (), some { session_info with status := AppStatus.Finalized })
      else (Res.err "while setting", store)
    else (Res.ok (), store)

end Celer.MS

namespace Celer.MG

/-- multi-gomoku `AppState` (no nonce field). -/
structure AppState (H : Type) where
  seq_num : Nat
  board_state : List Nat
  timeout : Nat
  app_id : H
deriving DecidableEq

/-- multi-gomoku `StateProof`. -/
structure StateProof (H S : Type) where
  app_state : AppState H
  sigs : List S
deriving DecidableEq

/-- multi-gomoku `StateKey`. -/
inductive StateKey where
  | TurnColor
  | WinnerColor
  | FullState
deriving DecidableEq

/-- multi-gomoku `GomokuState` (board is 228 bytes: winner color, turn
color, black id, then the 15 by 15 grid). -/
structure GomokuState where
  board_state : Option (List Nat)
  stone_num : Option Nat
  stone_num_onchain : Option Nat
  state_key : Option StateKey
  min_stone_offchain : Nat
  max_stone_onchain : Nat
deriving DecidableEq

/-- multi-gomoku `GomokuInfo`. -/
structure GomokuInfo (A : Type) where
  players : List A
  player_num : Nat
  seq_num : Nat
  timeout : Nat
  deadline : Nat
  status : AppStatus
  gomoku_state : GomokuState
deriving DecidableEq

/-- multi-gomoku `AppInitiateRequest`. -/
structure AppInitiateRequest (A : Type) where
  nonce : Nat
  player_num : Nat
  players : List A
  timeout : Nat
  min_stone_offchain : Nat
  max_stone_onchain : Nat
deriving DecidableEq

variable {A S H : Type} [LinearOrder A]

/-- multi-gomoku `valid_signers` (same loop as multi-session-app). -/
def valid_signers (vf : S → List Nat → A → Bool) (signatures : List S)
    (encoded : List Nat) (signers : List A) : Res Unit :=
  valid_signers_loop vf signatures encoded signers

/-- multi-gomoku `is_ordered_account` (same loop as multi-session-app). -/
def is_ordered_account (players : List A) : Res Unit :=
  match players.get? 0 with
  | none => Res.crash
  | some p0 => is_ordered_loop players p0

/-- multi-gomoku `intend_settle`.  The source keeps the stored
`seq_num` (it never copies `app_state.seq_num`) and computes the new
deadline as `block_number + gomoku_info.deadline` (the stored deadline,
not the timeout). -/
def intend_settle (vf : S → List Nat → A → Bool) (enc : AppState H → List Nat)
    (state_proof : StateProof H S) (now : Nat) (store : Option (GomokuInfo A)) :
    Res (GomokuInfo A) :=
  let app_state := state_proof.app_state
  match store with
  | none => Res.err "MultiGomokuInfoNotExist"
  | some gomoku_info =>
    match valid_signers vf state_proof.sigs (enc app_state) gomoku_info.players with
    | Res.ok _ =>
      if gomoku_info.status ≠ AppStatus.Finalized then
        if gomoku_info.seq_num < app_state.seq_num then
          Res.ok { gomoku_info with
            seq_num := gomoku_info.seq_num,
            deadline := now + gomoku_info.deadline,
            status := AppStatus.Settle }
        else Res.err "invalid sequence number"
      else Res.err "app state is finalized"
    | Res.err e => Res.err e
    | Res.crash => Res.crash

/-- multi-gomoku `apply_action` (it reads the storage slot itself). -/
def apply_action (now : Nat) (store : Option (GomokuInfo A)) : Res (GomokuInfo A) :=
  match store with
  | none => Res.err "MultiGomokuInfoNotExist"
  | some gomoku_info =>
    if gomoku_info.status ≠ AppStatus.Finalized then
      if gomoku_info.status = AppStatus.Settle ∧ gomoku_info.deadline < now then
        Res.ok { gomoku_info with
          seq_num := gomoku_info.seq_num + 1,
          deadline := now + gomoku_info.timeout,
          status := AppStatus.Action }
      else
        if gomoku_info.status = AppStatus.Action then
          Res.ok { gomoku_info with
            seq_num := gomoku_info.seq_num + 1,
            deadline := now + gomoku_info.timeout,
            status := AppStatus.Action }
        else Res.err "app not in action mode"
    else Res.err "app state is finalized"

/-- multi-gomoku `win_game`. -/
def win_game (winner : Nat) (gomoku_info : GomokuInfo A) : Res (GomokuInfo A) :=
  if winner ≤ 2 then
    let board0 := gomoku_info.gomoku_state.board_state.getD (List.replicate 228 0)
    match set_at board0 0 winner with
    | Res.ok board1 =>
      if winner ≠ 0 then
        match set_at board1 1 0 with
        | Res.ok board2 =>
          Res.ok { gomoku_info with
            status := AppStatus.Finalized,
            gomoku_state := { gomoku_info.gomoku_state with board_state := some board2 } }
        | _ => Res.crash
      else
        Res.ok { gomoku_info with
          gomoku_state := { gomoku_info.gomoku_state with board_state := some board1 } }
    | _ => Res.crash
  else Res.err "invalid winner state"

/-- multi-gomoku `app_initiate` (`get_app_id` folds over all players,
so it needs no indexing before the checks). -/
def app_initiate (initiate_request : AppInitiateRequest A)
    (store : Option (GomokuInfo A)) : Res Unit × Option (GomokuInfo A) :=
  if store.isSome then (Res.err "AppId already exists", store)
  else
    match is_ordered_account initiate_request.players with
    | Res.ok _ =>
      (Res.ok (), some {
        players := initiate_request.players,
        player_num := initiate_request.player_num,
        seq_num := 0,
        timeout := initiate_request.timeout,
        deadline := 0,
        status := AppStatus.Idle,
        gomoku_state := {
          board_state := none,
          stone_num := none,
          stone_num_onchain := none,
          state_key := none,
          min_stone_offchain := initiate_request.min_stone_offchain,
          max_stone_onchain := initiate_request.max_stone_onchain } })
    | Res.err e => (Res.err e, store)
    | Res.crash => (Res.crash, store)

/-- multi-gomoku `update_by_state`.  As in single-gomoku, the stone
count bound to `count` inside the winnerless branch shadows the outer
`let count = 0;`, so the stored `stone_num` is always `Some(0)`. -/
def update_by_state (vf : S → List Nat → A → Bool) (enc : AppState H → List Nat)
    (state_proof : StateProof H S) (now : Nat) (store : Option (GomokuInfo A)) :
    Res Unit × Option (GomokuInfo A) :=
  match intend_settle vf enc state_proof now store with
  | Res.err e => (Res.err e, store)
  | Res.crash => (Res.crash, store)
  | Res.ok gi1 =>
    let st := state_proof.app_state.board_state
    if st.length = 228 then
      let count : Nat := 0
      match st.get? 0 with
      | none => (Res.crash, store)
      | some w0 =>
        if w0 ≠ 0 then
          match win_game w0 gi1 with
          | Res.ok gi2 =>
            (Res.ok (), some { gi2 with gomoku_state :=
              { board_state := some st,
                stone_num := some count,
                stone_num_onchain := gi2.gomoku_state.stone_num_onchain,
                state_key := gi2.gomoku_state.state_key,
                min_stone_offchain := gi2.gomoku_state.min_stone_offchain,
                max_stone_onchain := gi2.gomoku_state.max_stone_onchain } })
          | Res.err e => (Res.err e, store)
          | Res.crash => (Res.crash, store)
        else
          let count1 := u8 ((st.drop 4).filter (fun v => v ≠ 0)).length
          if gi1.gomoku_state.min_stone_offchain ≤ count1 then
            (Res.ok (), some { gi1 with gomoku_state :=
              { board_state := some st,
                stone_num := some count,
                stone_num_onchain := gi1.gomoku_state.stone_num_onchain,
                state_key := gi1.gomoku_state.state_key,
                min_stone_offchain := gi1.gomoku_state.min_stone_offchain,
                max_stone_onchain := gi1.gomoku_state.max_stone_onchain } })
          else (Res.err "not enough offchain stones", store)
    else (Res.err "invalid state length", store)

/-- The turn-ownership check of multi-gomoku `update_by_action`:
`black_id` picks how the turn color maps to a player index; a `usize`
underflow or out-of-range index is a panic. -/
def turn_caller_check (caller : A) (players : List A)
    (turn_color black_id : Nat) : Res Unit :=
  if black_id = 1 then
    if turn_color = 0 then Res.crash
    else match players.get? (turn_color - 1) with
      | none => Res.crash
      | some p => if caller = p then Res.ok () else Res.err "Not your turn"
  else if black_id = 2 then
    if 2 < turn_color then Res.crash
    else match players.get? (2 - turn_color) with
      | none => Res.crash
      | some p => if caller = p then Res.ok () else Res.err "Not your turn"
  else Res.err "InvalidBlackId"

/-- multi-gomoku `update_by_action`.  The first storage write happens
before the five-in-a-row check. -/
def update_by_action (caller : A) (action : List Nat) (now : Nat)
    (store : Option (GomokuInfo A)) : Res Unit × Option (GomokuInfo A) :=
  match apply_action now store with
  | Res.err e => (Res.err e, store)
  | Res.crash => (Res.crash, store)
  | Res.ok gi1 =>
    let gs := gi1.gomoku_state
    match gs.board_state with
    | none => (Res.err "EmptyBoardState", store)
    | some board =>
      match board.get? 1 with
      | none => (Res.crash, store)
      | some turn_color =>
        match board.get? 2 with
        | none => (Res.crash, store)
        | some black_id =>
          match turn_caller_check caller gi1.players turn_color black_id with
          | Res.err e => (Res.err e, store)
          | Res.crash => (Res.crash, store)
          | Res.ok _ =>
            if action.length = 2 then
              match action.get? 0, action.get? 1 with
              | some x, some y =>
                if check_boundary x y then
                  match board.get? (state_index 3 x y) with
                  | none => (Res.crash, store)
                  | some cell =>
                    if cell = 0 then
                      let board1 := board.set (state_index 3 x y) (u8 turn_color)
                      let new_stone_num := gs.stone_num.getD 0 + 1
                      let new_stone_num_onchain := gs.stone_num_onchain.getD 0 + 1
                      let gi2 : GomokuInfo A := { gi1 with gomoku_state :=
                        { board_state := some board1,
                          stone_num := some new_stone_num,
                          stone_num_onchain := some new_stone_num_onchain,
                          state_key := gs.state_key,
                          min_stone_offchain := gs.min_stone_offchain,
                          max_stone_onchain := gs.max_stone_onchain } }
                      let store1 := some gi2
                      match check_five_dirs 3 board1 x y with
                      | Res.ok true =>
                        match win_game (u8 turn_color) gi2 with
                        | Res.ok w => (Res.ok (), some w)
                        | Res.err e => (Res.err e, store1)
                        | Res.crash => (Res.crash, store1)
                      | Res.ok false =>
                        if new_stone_num = 225 ∨
                            gs.max_stone_onchain < u8 new_stone_num_onchain then
                          (Res.ok (), some { gi2 with
                            status := AppStatus.Finalized,
                            gomoku_state := { gi2.gomoku_state with
                              board_state := some (board1.set 1 0) } })
                        else
                          (Res.ok (), some { gi2 with gomoku_state :=
                            { gi2.gomoku_state with
                              board_state := some (board1.set 1
                                (if turn_color = 1 then 2 else 1)) } })
                      | _ => (Res.crash, store1)
                    else (Res.err "slot is occupied", store)
                else (Res.err "out of boundary", store)
              | _, _ => (Res.crash, store)
            else (Res.err "invalid action length", store)

/-- Shared tail of multi-gomoku `finalize_on_action_timeout` once a
deadline has been found elapsed. -/
def finalize_due (gomoku_info : GomokuInfo A) : Res Unit × Option (GomokuInfo A) :=
  match gomoku_info.gomoku_state.board_state with
  | none => (Res.err "EmptyBoardState", some gomoku_info)
  | some bs =>
    match bs.get? 1 with
    | none => (Res.crash, some gomoku_info)
    | some t =>
      if t = 1 then
        match win_game 2 gomoku_info with
        | Res.ok w => (Res.ok (), some w)
        | Res.err e => (Res.err e, some gomoku_info)
        | Res.crash => (Res.crash, some gomoku_info)
      else if t = 2 then
        match win_game 1 gomoku_info with
        | Res.ok w => (Res.ok (), some w)
        | Res.err e => (Res.err e, some gomoku_info)
        | Res.crash => (Res.crash, some gomoku_info)
      else (Res.ok (), some gomoku_info)

/-- multi-gomoku `finalize_on_action_timeout`. -/
def finalize_on_action_timeout (now : Nat) (store : Option (GomokuInfo A)) :
    Res Unit × Option (GomokuInfo A) :=
  match store with
  | none => (Res.err "MultiGomokuInfoNotExist", store)
  | some gomoku_info =>
    if gomoku_info.status = AppStatus.Action then
      if gomoku_info.deadline < now then finalize_due gomoku_info
      else (Res.err "deadline does not passes", store)
    else if gomoku_info.status = AppStatus.Settle then
      if gomoku_info.deadline + gomoku_info.timeout < now then finalize_due gomoku_info
      else (Res.err "while setting", store)
    else (Res.ok (), store)

end Celer.MG

namespace Celer.Fix

/-- Signature check that always succeeds (concrete instantiation of the
abstract `Verify` dictionary). -/
def vfT : Nat → List Nat → Nat → Bool := fun _ _ _ => true

/-- Signature check accepting exactly the signature equal to the
signer's account id. -/
def vfS : Nat → List Nat → Nat → Bool := fun s _ p => s = p

def encSG : SG.AppState Nat → List Nat := fun a => [a.nonce, a.seq_num]

def encSS : SS.AppState Nat → List Nat := fun a => [a.nonce, a.seq_num]

def encMS : MS.AppState Nat → List Nat := fun a => [a.seq_num, a.state]

def encMG : MG.AppState Nat → List Nat := fun a => [a.seq_num]

def mgGs : MG.GomokuState :=
  { board_state := none, stone_num := none, stone_num_onchain := none,
    state_key := none, min_stone_offchain := 0, max_stone_onchain := 5 }

/-- A multi-gomoku channel in `Idle` with stored `seq_num = 0`,
`timeout = 2` and stored `deadline = 7`. -/
def mgInfo : MG.GomokuInfo Nat :=
  { players := [1, 2], player_num := 2, seq_num := 0, timeout := 2,
    deadline := 7, status := AppStatus.Idle, gomoku_state := mgGs }

/-- A fully signed multi-gomoku proof with `seq_num = 5` and an
all-zero 228-byte board. -/
def mgProof : MG.StateProof Nat Nat :=
  { app_state := { seq_num := 5, board_state := List.replicate 228 0,
                   timeout := 2, app_id := 0 },
    sigs := [11, 22] }

def sgGs : SG.GomokuState :=
  { board_state := none, stone_num := none, stone_num_onchain := none,
    state_key := none, min_stone_offchain := 0, max_stone_onchain := 5 }

def sgInfo : SG.GomokuInfo Nat :=
  { nonce := 1, players := [1, 2], seq_num := 0, timeout := 2,
    deadline := 0, status := AppStatus.Idle, gomoku_state := sgGs }

/-- A single-gomoku proof with an empty signature list. -/
def sgProofNoSig : SG.StateProof Nat Nat :=
  { app_state := { nonce := 1, seq_num := 5, board_state := List.replicate 227 0,
                   timeout := 2, session_id := 0 },
    sigs := [] }

/-- A single-gomoku proof whose signatures `[1, 2]` verify under `vfS`
against the players `[1, 2]`. -/
def sgProofOk : SG.StateProof Nat Nat :=
  { app_state := { nonce := 1, seq_num := 5, board_state := List.replicate 227 0,
                   timeout := 2, session_id := 0 },
    sigs := [1, 2] }

/-- The single-gomoku channel stored by a successful
`update_by_state` of `sgProofOk` over `sgInfo` at block 3. -/
def sgStored : SG.GomokuInfo Nat :=
  { nonce := 1, players := [1, 2], seq_num := 5, timeout := 2,
    deadline := 5, status := AppStatus.Settle,
    gomoku_state := { board_state := some (List.replicate 227 0),
                      stone_num := some 0, stone_num_onchain := none,
                      state_key := none, min_stone_offchain := 0,
                      max_stone_onchain := 5 } }

/-- The multi-gomoku channel stored by the accepted
`update_by_state` of `mgProof` over `mgInfo` at block 10. -/
def mgStored : MG.GomokuInfo Nat :=
  { players := [1, 2], player_num := 2, seq_num := 0, timeout := 2,
    deadline := 17, status := AppStatus.Settle,
    gomoku_state := { board_state := some (List.replicate 228 0),
                      stone_num := some 0, stone_num_onchain := none,
                      state_key := none, min_stone_offchain := 0,
                      max_stone_onchain := 5 } }

end Celer.Fix

namespace Celer

/-- C1: the claim states that an accepted `update_by_state` stores
`seq_num := proof.seq_num` and `deadline := now + timeout` in each of
the four pallet variants.  Evaluating the multi-gomoku `intend_settle`
at an accepted proof (valid quorum, channel Idle, stored seq 0, proof
seq 5, timeout 2, stored deadline 7, block number 10) shows the code
keeps the stored `seq_num  = 0` (not 5) and sets
`deadline = 17 = now + stored deadline` (not `12 = now + timeout`),
while still setting status to Settle. -/
theorem C1_multi_gomoku_intend_settle_ignores_proof_seq :
    MG.intend_settle Fix.vfT Fix.encMG Fix.mgProof 10 (some Fix.mgInfo) =
      Res.ok { Fix.mgInfo with deadline := 17, status := AppStatus.Settle } ∧
    Fix.mgInfo.seq_num = 0 ∧
    Fix.mgProof.app_state.seq_num = 5 ∧
    Fix.mgInfo.seq_num < Fix.mgProof.app_state.seq_num ∧
    10 + Fix.mgInfo.timeout = 12 := by
  refine ⟨?_, rfl, rfl, by decide, rfl⟩
  decide

/-- C2: the claim states that every accepted `update_by_state` call
strictly increases the stored `seq_num`.  Evaluating the full
multi-gomoku `update_by_state` at an accepted proof (stored seq 0,
proof seq 5) shows the call succeeds yet the stored `seq_num` is still
0, so the same proof would be accepted again. -/
theorem C2_multi_gomoku_update_by_state_keeps_seq :
    MG.update_by_state Fix.vfT Fix.encMG Fix.mgProof 10 (some Fix.mgInfo) =
      (Res.ok (), some Fix.mgStored) ∧
    Fix.mgStored.seq_num = Fix.mgInfo.seq_num ∧
    Fix.mgInfo.seq_num < Fix.mgProof.app_state.seq_num := by
  refine ⟨?_, rfl, by decide⟩
  decide

/-- C10: in both gomoku pallets, every successful `update_by_state`
stores `gomoku_state.stone_num = Some(0)`, because the stone count
used for the minimum-offchain-stones check shadows the outer
`let count = 0;` and is never stored. -/
theorem C10_update_by_state_stores_stone_num_zero :
    (∀ (A S H : Type) (vf : S → List Nat → A → Bool)
        (enc : SG.AppState H → List Nat) (sp : SG.StateProof H S) (now : Nat)
        (store st : Option (SG.GomokuInfo A)),
      SG.update_by_state vf enc sp now store = (Res.ok (), st) →
      ∃ gi, st = some gi ∧ gi.gomoku_state.stone_num = some 0) ∧
    (∀ (A S H : Type) (vf : S → List Nat → A → Bool)
        (enc : MG.AppState H → List Nat) (sp : MG.StateProof H S) (now : Nat)
        (store st : Option (MG.GomokuInfo A)),
      MG.update_by_state vf enc sp now store = (Res.ok (), st) →
      ∃ gi, st = some gi ∧ gi.gomoku_state.stone_num = some 0) := by
  constructor
  · intro A S H vf enc sp now store st h
    unfold SG.update_by_state at h
    repeat' (first | split at h | simp only [] at h)
    all_goals injection h with h1 h2
    all_goals first
      | exact Res.noConfusion h1
      | exact ⟨_, h2.symm, rfl⟩
  · intro A S H vf enc sp now store st h
    unfold MG.update_by_state at h
    repeat' (first | split at h | simp only [] at h)
    all_goals injection h with h1 h2
    all_goals first
      | exact Res.noConfusion h1
      | exact ⟨_, h2.symm, rfl⟩

/-- C10 witness: the successful single-gomoku and multi-gomoku
settlements of the fixtures store `stone_num = Some(0)`. -/
theorem C10_witness :
    (∃ gi, some Fix.sgStored = some gi ∧ gi.gomoku_state.stone_num = some 0) ∧
    (∃ gi, some Fix.mgStored = some gi ∧ gi.gomoku_state.stone_num = some 0) :=
  ⟨C10_update_by_state_stores_stone_num_zero.1 Nat Nat Nat Fix.vfS Fix.encSG
      Fix.sgProofOk 3 (some Fix.sgInfo) (some Fix.sgStored) (by decide),
    C10_update_by_state_stores_stone_num_zero.2 Nat Nat Nat Fix.vfT Fix.encMG
      Fix.mgProof 10 (some Fix.mgInfo) (some Fix.mgStored) (by decide)⟩

end Celer

namespace Celer.Fix

/-- A single-session-app channel in `Action` with deadline 10. -/
def ssInfoA : SS.AppInfo Nat :=
  { state := 0, nonce := 1, players := [1, 2], seq_num := 3, timeout := 2,
    deadline := 10, status := AppStatus.Action }

def ssInfoF : SS.AppInfo Nat := { ssInfoA with status := AppStatus.Finalized }

def ssProof : SS.StateProof Nat Nat :=
  { app_state := { nonce := 1, seq_num := 5, state := 0, timeout := 2, app_id := 0 },
    sigs := [1, 2] }

def msInfo : MS.SessionInfo Nat :=
  { state := 0, players := [1, 2], player_num := 2, seq_num := 0, timeout := 2,
    deadline := 0, status := AppStatus.Idle }

def msInfoF : MS.SessionInfo Nat := { msInfo with status := AppStatus.Finalized }

def msProof : MS.StateProof Nat Nat :=
  { app_state := { seq_num := 5, state := 0, timeout := 2, session_id := 0 },
    sigs := [1, 2] }

/-- A single-session-app channel in `Settle` with deadline 10, timeout 2. -/
def ssInfoS : SS.AppInfo Nat := { ssInfoA with status := AppStatus.Settle }

/-- A single-session-app channel in `Idle`. -/
def msIdleSS : SS.AppInfo Nat := { ssInfoA with status := AppStatus.Idle }

def sgInfoF : SG.GomokuInfo Nat := { sgInfo with status := AppStatus.Finalized }

def mgInfoF : MG.GomokuInfo Nat := { mgInfo with status := AppStatus.Finalized }

end Celer.Fix

namespace Celer

lemma sg_intend_settle_finalized {A S H : Type} (vf : S → List Nat → A → Bool)
    (enc : SG.AppState H → List Nat) (gi : SG.GomokuInfo A)
    (sp : SG.StateProof H S) (now : Nat) (h : gi.status = AppStatus.Finalized) :
    ∀ r, SG.intend_settle vf enc gi sp now ≠ Res.ok r := by
  intro r hc
  unfold SG.intend_settle at hc
  repeat' (first | split at hc | simp only [] at hc)
  all_goals simp_all

lemma ss_intend_settle_finalized {A S H : Type} (vf : S → List Nat → A → Bool)
    (enc : SS.AppState H → List Nat) (ai : SS.AppInfo A)
    (sp : SS.StateProof H S) (now : Nat) (h : ai.status = AppStatus.Finalized) :
    ∀ r, SS.intend_settle vf enc sp now (some ai) ≠ Res.ok r := by
  intro r hc
  unfold SS.intend_settle at hc
  repeat' (first | split at hc | simp only [] at hc)
  all_goals simp_all

lemma ms_intend_settle_finalized {A S H : Type} (vf : S → List Nat → A → Bool)
    (enc : MS.AppState H → List Nat) (si : MS.SessionInfo A)
    (sp : MS.StateProof H S) (now : Nat) (h : si.status = AppStatus.Finalized) :
    ∀ r, MS.intend_settle vf enc si sp now ≠ Res.ok r := by
  intro r hc
  unfold MS.intend_settle at hc
  repeat' (first | split at hc | simp only [] at hc)
  all_goals simp_all

lemma mg_intend_settle_finalized {A S H : Type} (vf : S → List Nat → A → Bool)
    (enc : MG.AppState H → List Nat) (gi : MG.GomokuInfo A)
    (sp : MG.StateProof H S) (now : Nat) (h : gi.status = AppStatus.Finalized) :
    ∀ r, MG.intend_settle vf enc sp now (some gi) ≠ Res.ok r := by
  intro r hc
  unfold MG.intend_settle at hc
  repeat' (first | split at hc | simp only [] at hc)
  all_goals simp_all

/-- C4 counterexample: the claim states that every mutating operation
on a Finalized channel (including `finalize_on_action_timeout`)
returns a Finalized error.  On a concrete Finalized single-session-app
channel, `finalize_on_action_timeout` returns success (a no-op), not
an error. -/
theorem C4_counterexample_finalize_is_noop_not_error :
    SS.finalize_on_action_timeout 20 (some Fix.ssInfoF) =
      (Res.ok (), some Fix.ssInfoF) := by decide

/-- C4 amended: on a Finalized channel, `update_by_state` and
`update_by_action` fail without mutating the stored state
(`update_by_action` with the error "app state is finalized";
`update_by_state` never succeeds, though the exact error depends on
whether the signature check fails first), while
`finalize_on_action_timeout` returns success as a no-op; in all
cases the stored state is unchanged, so no operation moves a channel
out of Finalized.  This holds in each of the four pallet variants. -/
theorem C4_amended_finalized_behavior :
    (∀ (A S H : Type) (vf : S → List Nat → A → Bool) (enc : SG.AppState H → List Nat)
        (sp : SG.StateProof H S) (now : Nat) (gi : SG.GomokuInfo A),
      gi.status = AppStatus.Finalized →
      ∀ r st, SG.update_by_state vf enc sp now (some gi) = (r, st) →
        st = some gi ∧ r ≠ Res.ok ()) ∧
    (∀ (A : Type) (inst : LinearOrder A) (caller : A) (action : List Nat) (now : Nat)
        (gi : SG.GomokuInfo A), gi.status = AppStatus.Finalized →
      SG.update_by_action caller action now (some gi) =
        (Res.err "app state is finalized", some gi)) ∧
    (∀ (A : Type) (now : Nat) (gi : SG.GomokuInfo A), gi.status = AppStatus.Finalized →
      SG.finalize_on_action_timeout now (some gi) = (Res.ok (), some gi)) ∧
    (∀ (A S H : Type) (vf : S → List Nat → A → Bool) (enc : SS.AppState H → List Nat)
        (sp : SS.StateProof H S) (now : Nat) (ai : SS.AppInfo A),
      ai.status = AppStatus.Finalized →
      ∀ r st, SS.update_by_state vf enc sp now (some ai) = (r, st) →
        st = some ai ∧ r ≠ Res.ok ()) ∧
    (∀ (A : Type) (action now : Nat) (ai : SS.AppInfo A),
      ai.status = AppStatus.Finalized →
      SS.update_by_action action now (some ai) =
        (Res.err "app state is finalized", some ai)) ∧
    (∀ (A : Type) (now : Nat) (ai : SS.AppInfo A), ai.status = AppStatus.Finalized →
      SS.finalize_on_action_timeout now (some ai) = (Res.ok (), some ai)) ∧
    (∀ (A S H : Type) (vf : S → List Nat → A → Bool) (enc : MS.AppState H → List Nat)
        (sp : MS.StateProof H S) (now : Nat) (si : MS.SessionInfo A),
      si.status = AppStatus.Finalized →
      ∀ r st, MS.update_by_state vf enc sp now (some si) = (r, st) →
        st = some si ∧ r ≠ Res.ok ()) ∧
    (∀ (A : Type) (action now : Nat) (si : MS.SessionInfo A),
      si.status = AppStatus.Finalized →
      MS.update_by_action action now (some si) =
        (Res.err "app state is finalized", some si)) ∧
    (∀ (A : Type) (now : Nat) (si : MS.SessionInfo A), si.status = AppStatus.Finalized →
      MS.finalize_on_action_timeout now (some si) = (Res.ok (), some si)) ∧
    (∀ (A S H : Type) (vf : S → List Nat → A → Bool) (enc : MG.AppState H → List Nat)
        (sp : MG.StateProof H S) (now : Nat) (gi : MG.GomokuInfo A),
      gi.status = AppStatus.Finalized →
      ∀ r st, MG.update_by_state vf enc sp now (some gi) = (r, st) →
        st = some gi ∧ r ≠ Res.ok ()) ∧
    (∀ (A : Type) (inst : LinearOrder A) (caller : A) (action : List Nat) (now : Nat)
        (gi : MG.GomokuInfo A), gi.status = AppStatus.Finalized →
      MG.update_by_action caller action now (some gi) =
        (Res.err "app state is finalized", some gi)) ∧
    (∀ (A : Type) (now : Nat) (gi : MG.GomokuInfo A), gi.status = AppStatus.Finalized →
      MG.finalize_on_action_timeout now (some gi) = (Res.ok (), some gi)) := by
  refine ⟨?_, ?_, ?_, ?_, ?_, ?_, ?_, ?_, ?_, ?_, ?_, ?_⟩
  · intro A S H vf enc sp now gi h r st hc
    unfold SG.update_by_state at hc
    repeat' (first | simp only [] at hc | split at hc)
    all_goals injection hc with h1 h2
    all_goals first
      | exact absurd (by assumption) (sg_intend_settle_finalized vf enc gi sp now h _)
      | exact ⟨h2.symm, by rw [← h1]; simp⟩
  · intro A inst caller action now gi h
    simp [SG.update_by_action, SG.apply_action, h]
  · intro A now gi h
    simp [SG.finalize_on_action_timeout, h]
  · intro A S H vf enc sp now ai h r st hc
    unfold SS.update_by_state at hc
    repeat' (first | simp only [] at hc | split at hc)
    all_goals injection hc with h1 h2
    all_goals first
      | exact absurd (by assumption) (ss_intend_settle_finalized vf enc ai sp now h _)
      | exact ⟨h2.symm, by rw [← h1]; simp⟩
  · intro A action now ai h
    simp [SS.update_by_action, SS.apply_action, h]
  · intro A now ai h
    simp [SS.finalize_on_action_timeout, h]
  · intro A S H vf enc sp now si h r st hc
    unfold MS.update_by_state at hc
    repeat' (first | simp only [] at hc | split at hc)
    all_goals injection hc with h1 h2
    all_goals first
      | exact absurd (by assumption) (ms_intend_settle_finalized vf enc si sp now h _)
      | exact ⟨h2.symm, by rw [← h1]; simp⟩
  · intro A action now si h
    simp [MS.update_by_action, MS.apply_action, h]
  · intro A now si h
    simp [MS.finalize_on_action_timeout, h]
  · intro A S H vf enc sp now gi h r st hc
    unfold MG.update_by_state at hc
    repeat' (first | simp only [] at hc | split at hc)
    all_goals injection hc with h1 h2
    all_goals first
      | exact absurd (by assumption) (mg_intend_settle_finalized vf enc gi sp now h _)
      | exact ⟨h2.symm, by rw [← h1]; simp⟩
  · intro A inst caller action now gi h
    simp [MG.update_by_action, MG.apply_action, h]
  · intro A now gi h
    simp [MG.finalize_on_action_timeout, h]

/-- C4 witness: the amended behavior evaluated on concrete Finalized
channels in each pallet. -/
theorem C4_witness :
    (some Fix.sgInfoF = some Fix.sgInfoF ∧
      Res.err "app state is finalized" ≠ Res.ok ()) ∧
    SG.update_by_action 1 [0, 0] 3 (some Fix.sgInfoF) =
      (Res.err "app state is finalized", some Fix.sgInfoF) ∧
    SG.finalize_on_action_timeout 3 (some Fix.sgInfoF) = (Res.ok (), some Fix.sgInfoF) ∧
    (some Fix.ssInfoF = some Fix.ssInfoF ∧
      Res.err "app state is finalized" ≠ Res.ok ()) ∧
    SS.update_by_action 0 3 (some Fix.ssInfoF) =
      (Res.err "app state is finalized", some Fix.ssInfoF) ∧
    SS.finalize_on_action_timeout 3 (some Fix.ssInfoF) = (Res.ok (), some Fix.ssInfoF) ∧
    (some Fix.msInfoF = some Fix.msInfoF ∧
      Res.err "app state is finalized" ≠ Res.ok ()) ∧
    MS.update_by_action 0 3 (some Fix.msInfoF) =
      (Res.err "app state is finalized", some Fix.msInfoF) ∧
    MS.finalize_on_action_timeout 3 (some Fix.msInfoF) = (Res.ok (), some Fix.msInfoF) ∧
    (some Fix.mgInfoF = some Fix.mgInfoF ∧
      Res.err "app state is finalized" ≠ Res.ok ()) ∧
    MG.update_by_action 1 [0, 0] 3 (some Fix.mgInfoF) =
      (Res.err "app state is finalized", some Fix.mgInfoF) ∧
    MG.finalize_on_action_timeout 3 (some Fix.mgInfoF) = (Res.ok (), some Fix.mgInfoF) :=
  ⟨C4_amended_finalized_behavior.1 Nat Nat Nat Fix.vfS Fix.encSG Fix.sgProofOk 3
      Fix.sgInfoF (by decide) (Res.err "app state is finalized") (some Fix.sgInfoF)
      (by decide),
    C4_amended_finalized_behavior.2.1 Nat inferInstance 1 [0, 0] 3 Fix.sgInfoF (by decide),
    C4_amended_finalized_behavior.2.2.1 Nat 3 Fix.sgInfoF (by decide),
    C4_amended_finalized_behavior.2.2.2.1 Nat Nat Nat Fix.vfS Fix.encSS Fix.ssProof 3
      Fix.ssInfoF (by decide) (Res.err "app state is finalized") (some Fix.ssInfoF)
      (by decide),
    C4_amended_finalized_behavior.2.2.2.2.1 Nat 0 3 Fix.ssInfoF (by decide),
    C4_amended_finalized_behavior.2.2.2.2.2.1 Nat 3 Fix.ssInfoF (by decide),
    C4_amended_finalized_behavior.2.2.2.2.2.2.1 Nat Nat Nat Fix.vfS Fix.encMS Fix.msProof 3
      Fix.msInfoF (by decide) (Res.err "app state is finalized") (some Fix.msInfoF)
      (by decide),
    C4_amended_finalized_behavior.2.2.2.2.2.2.2.1 Nat 0 3 Fix.msInfoF (by decide),
    C4_amended_finalized_behavior.2.2.2.2.2.2.2.2.1 Nat 3 Fix.msInfoF (by decide),
    C4_amended_finalized_behavior.2.2.2.2.2.2.2.2.2.1 Nat Nat Nat Fix.vfT Fix.encMG
      Fix.mgProof 10 Fix.mgInfoF (by decide) (Res.err "app state is finalized")
      (some Fix.mgInfoF) (by decide),
    C4_amended_finalized_behavior.2.2.2.2.2.2.2.2.2.2.1 Nat inferInstance 1 [0, 0] 3
      Fix.mgInfoF (by decide),
    C4_amended_finalized_behavior.2.2.2.2.2.2.2.2.2.2.2 Nat 3 Fix.mgInfoF (by decide)⟩

end Celer

namespace Celer.Fix

/-- A 227-byte single-gomoku board whose turn byte is 1. -/
def sgBoardT1 : List Nat := (List.replicate 227 0).set 1 1

/-- A 227-byte single-gomoku board whose turn byte is 2. -/
def sgBoardT2 : List Nat := (List.replicate 227 0).set 1 2

/-- A single-gomoku channel in `Action` (deadline 10) holding a board
with turn byte 1. -/
def sgInfoAct : SG.GomokuInfo Nat :=
  { nonce := 1, players := [1, 2], seq_num := 4, timeout := 2, deadline := 10,
    status := AppStatus.Action,
    gomoku_state := { sgGs with board_state := some sgBoardT1 } }

/-- Same channel with a turn-byte-2 board. -/
def sgInfoActT2 : SG.GomokuInfo Nat :=
  { sgInfoAct with gomoku_state := { sgGs with board_state := some sgBoardT2 } }

/-- Same channel with no stored board. -/
def sgInfoActNoBoard : SG.GomokuInfo Nat :=
  { sgInfoAct with gomoku_state := sgGs }

/-- Same channel with a turn-byte-0 board. -/
def sgInfoActT0 : SG.GomokuInfo Nat :=
  { sgInfoAct with gomoku_state := { sgGs with board_state := some (List.replicate 227 0) } }

end Celer.Fix

namespace Celer

/-- C6 counterexample: the claim states that calling
`finalize_on_action_timeout` while status is Action with the block
number not past the deadline returns success as a no-op.  On a
concrete single-session-app channel in Action with deadline 10 at
block 9, the call returns the error "deadline no passes" instead. -/
theorem C6_counterexample_premature_finalize_errors :
    SS.finalize_on_action_timeout 9 (some Fix.ssInfoA) =
      (Res.err "deadline no passes", some Fix.ssInfoA) := by decide

/-- C6 amended: `finalize_on_action_timeout` is a successful no-op on
Idle or Finalized channels, but returns an error (not a no-op) when
called on an Action channel before its deadline or on a Settle channel
before deadline plus timeout; once due it finalizes — unconditionally
in single-session-app, while single-gomoku finalizes by awarding the
win to the other player only when the stored board's turn byte is 1 or
2, errors with EmptyBoardState when no board is stored, and is a
successful no-op when the turn byte is anything else. -/
theorem C6_amended_finalize_behavior :
    (∀ (A : Type) (now : Nat) (ai : SS.AppInfo A),
      (ai.status = AppStatus.Idle →
        SS.finalize_on_action_timeout now (some ai) = (Res.ok (), some ai)) ∧
      (ai.status = AppStatus.Finalized →
        SS.finalize_on_action_timeout now (some ai) = (Res.ok (), some ai)) ∧
      (ai.status = AppStatus.Action → now ≤ ai.deadline →
        SS.finalize_on_action_timeout now (some ai) =
          (Res.err "deadline no passes", some ai)) ∧
      (ai.status = AppStatus.Settle → now ≤ ai.deadline + ai.timeout →
        SS.finalize_on_action_timeout now (some ai) =
          (Res.err "while setting", some ai)) ∧
      (ai.status = AppStatus.Action → ai.deadline < now →
        SS.finalize_on_action_timeout now (some ai) =
          (Res.ok (), some { ai with status := AppStatus.Finalized })) ∧
      (ai.status = AppStatus.Settle → ai.deadline + ai.timeout < now →
        SS.finalize_on_action_timeout now (some ai) =
          (Res.ok (), some { ai with status := AppStatus.Finalized }))) ∧
    (∀ (A : Type) (now : Nat) (gi : SG.GomokuInfo A),
      (gi.status = AppStatus.Idle →
        SG.finalize_on_action_timeout now (some gi) = (Res.ok (), some gi)) ∧
      (gi.status = AppStatus.Finalized →
        SG.finalize_on_action_timeout now (some gi) = (Res.ok (), some gi)) ∧
      (gi.status = AppStatus.Action → now ≤ gi.deadline →
        SG.finalize_on_action_timeout now (some gi) =
          (Res.err "deadline no passes", some gi)) ∧
      (gi.status = AppStatus.Settle → now ≤ gi.deadline + gi.timeout →
        SG.finalize_on_action_timeout now (some gi) =
          (Res.err "while settling", some gi)) ∧
      ((gi.status = AppStatus.Action ∧ gi.deadline < now) ∨
          (gi.status = AppStatus.Settle ∧ gi.deadline + gi.timeout < now) →
        (gi.gomoku_state.board_state = none →
          SG.finalize_on_action_timeout now (some gi) =
            (Res.err "EmptyBoardState", some gi)) ∧
        (∀ bs t, gi.gomoku_state.board_state = some bs → bs.get? 1 = some t →
          t ≠ 1 → t ≠ 2 →
          SG.finalize_on_action_timeout now (some gi) = (Res.ok (), some gi)) ∧
        (∀ bs, gi.gomoku_state.board_state = some bs → bs.get? 1 = some 1 →
          SG.finalize_on_action_timeout now (some gi) =
            (Res.ok (), some { gi with
              status := AppStatus.Finalized,
              gomoku_state := { gi.gomoku_state with
                board_state := some ((bs.set 0 2).set 1 0) } })) ∧
        (∀ bs, gi.gomoku_state.board_state = some bs → bs.get? 1 = some 2 →
          SG.finalize_on_action_timeout now (some gi) =
            (Res.ok (), some { gi with
              status := AppStatus.Finalized,
              gomoku_state := { gi.gomoku_state with
                board_state := some ((bs.set 0 1).set 1 0) } })))) := by
  constructor
  · intro A now ai
    refine ⟨?_, ?_, ?_, ?_, ?_, ?_⟩
    · intro h; simp [SS.finalize_on_action_timeout, h]
    · intro h; simp [SS.finalize_on_action_timeout, h]
    · intro h hle
      have hn : ¬ ai.deadline < now := by omega
      simp [SS.finalize_on_action_timeout, h, hn]
    · intro h hle
      have hn : ¬ ai.deadline + ai.timeout < now := by omega
      simp [SS.finalize_on_action_timeout, h, hn]
    · intro h hlt; simp [SS.finalize_on_action_timeout, h, hlt]
    · intro h hlt; simp [SS.finalize_on_action_timeout, h, hlt]
  · intro A now gi
    refine ⟨?_, ?_, ?_, ?_, ?_⟩
    · intro h; simp [SG.finalize_on_action_timeout, h]
    · intro h; simp [SG.finalize_on_action_timeout, h]
    · intro h hle
      have hn : ¬ gi.deadline < now := by omega
      simp [SG.finalize_on_action_timeout, h, hn]
    · intro h hle
      have hn : ¬ gi.deadline + gi.timeout < now := by omega
      simp [SG.finalize_on_action_timeout, h, hn]
    · intro hdue
      have hred : SG.finalize_on_action_timeout now (some gi) = SG.finalize_due gi := by
        rcases hdue with ⟨h, hlt⟩ | ⟨h, hlt⟩ <;>
          simp [SG.finalize_on_action_timeout, h, hlt]
      refine ⟨?_, ?_, ?_, ?_⟩
      · intro hb; rw [hred]; simp [SG.finalize_due, hb]
      · intro bs t hb ht h1 h2
        rw [List.get?_eq_getElem?] at ht
        rw [hred]
        simp [SG.finalize_due, hb, ht, h1, h2]
      · intro bs hb ht
        have h1 : 1 < bs.length := by
          by_contra hl
          push_neg at hl
          rw [List.get?_eq_none.mpr hl] at ht
          cases ht
        have h0 : 0 < bs.length := by omega
        rw [List.get?_eq_getElem?] at ht
        rw [hred]
        simp [SG.finalize_due, hb, ht, SG.win_game, set_at, List.length_set, h0, h1]
      · intro bs hb ht
        have h1 : 1 < bs.length := by
          by_contra hl
          push_neg at hl
          rw [List.get?_eq_none.mpr hl] at ht
          cases ht
        have h0 : 0 < bs.length := by omega
        rw [List.get?_eq_getElem?] at ht
        rw [hred]
        simp [SG.finalize_due, hb, ht, SG.win_game, set_at, List.length_set, h0, h1]

/-- C6 witness: the amended finalize behavior evaluated on concrete
channels covering every case. -/
theorem C6_witness :
    SS.finalize_on_action_timeout 9 (some Fix.msIdleSS) = (Res.ok (), some Fix.msIdleSS) ∧
    SS.finalize_on_action_timeout 9 (some Fix.ssInfoF) = (Res.ok (), some Fix.ssInfoF) ∧
    SS.finalize_on_action_timeout 9 (some Fix.ssInfoA) =
      (Res.err "deadline no passes", some Fix.ssInfoA) ∧
    SS.finalize_on_action_timeout 11 (some Fix.ssInfoA) =
      (Res.ok (), some { Fix.ssInfoA with status := AppStatus.Finalized }) ∧
    SS.finalize_on_action_timeout 9 (some Fix.ssInfoS) =
      (Res.err "while setting", some Fix.ssInfoS) ∧
    SS.finalize_on_action_timeout 13 (some Fix.ssInfoS) =
      (Res.ok (), some { Fix.ssInfoS with status := AppStatus.Finalized }) ∧
    SG.finalize_on_action_timeout 9 (some Fix.sgInfo) = (Res.ok (), some Fix.sgInfo) ∧
    SG.finalize_on_action_timeout 9 (some Fix.sgInfoActNoBoard) =
      (Res.err "deadline no passes", some Fix.sgInfoActNoBoard) ∧
    SG.finalize_on_action_timeout 11 (some Fix.sgInfoActNoBoard) =
      (Res.err "EmptyBoardState", some Fix.sgInfoActNoBoard) ∧
    SG.finalize_on_action_timeout 11 (some Fix.sgInfoActT0) =
      (Res.ok (), some Fix.sgInfoActT0) ∧
    SG.finalize_on_action_timeout 11 (some Fix.sgInfoAct) =
      (Res.ok (), some { Fix.sgInfoAct with
        status := AppStatus.Finalized,
        gomoku_state := { Fix.sgInfoAct.gomoku_state with
          board_state := some ((Fix.sgBoardT1.set 0 2).set 1 0) } }) ∧
    SG.finalize_on_action_timeout 11 (some Fix.sgInfoActT2) =
      (Res.ok (), some { Fix.sgInfoActT2 with
        status := AppStatus.Finalized,
        gomoku_state := { Fix.sgInfoActT2.gomoku_state with
          board_state := some ((Fix.sgBoardT2.set 0 1).set 1 0) } }) :=
  ⟨(C6_amended_finalize_behavior.1 Nat 9 Fix.msIdleSS).1 (by decide),
    (C6_amended_finalize_behavior.1 Nat 9 Fix.ssInfoF).2.1 (by decide),
    (C6_amended_finalize_behavior.1 Nat 9 Fix.ssInfoA).2.2.1 (by decide) (by decide),
    (C6_amended_finalize_behavior.1 Nat 11 Fix.ssInfoA).2.2.2.2.1 (by decide) (by decide),
    (C6_amended_finalize_behavior.1 Nat 9 Fix.ssInfoS).2.2.2.1 (by decide) (by decide),
    (C6_amended_finalize_behavior.1 Nat 13 Fix.ssInfoS).2.2.2.2.2 (by decide) (by decide),
    (C6_amended_finalize_behavior.2 Nat 9 Fix.sgInfo).1 (by decide),
    (C6_amended_finalize_behavior.2 Nat 9 Fix.sgInfoActNoBoard).2.2.1 (by decide) (by decide),
    ((C6_amended_finalize_behavior.2 Nat 11 Fix.sgInfoActNoBoard).2.2.2.2
      (Or.inl ⟨by decide, by decide⟩)).1 (by decide),
    ((C6_amended_finalize_behavior.2 Nat 11 Fix.sgInfoActT0).2.2.2.2
      (Or.inl ⟨by decide, by decide⟩)).2.1 (List.replicate 227 0) 0 (by decide) (by decide)
      (by decide) (by decide),
    ((C6_amended_finalize_behavior.2 Nat 11 Fix.sgInfoAct).2.2.2.2
      (Or.inl ⟨by decide, by decide⟩)).2.2.1 Fix.sgBoardT1 (by decide) (by decide),
    ((C6_amended_finalize_behavior.2 Nat 11 Fix.sgInfoActT2).2.2.2.2
      (Or.inl ⟨by decide, by decide⟩)).2.2.2 Fix.sgBoardT2 (by decide) (by decide)⟩

end Celer

namespace Celer

lemma is_ordered_loop_three {A : Type} [LinearOrder A] (players : List A) (p0 p1 : A)
    (h1 : players.get? 1 = some p1) (hlen : 3 ≤ players.length) :
    is_ordered_loop players p0 = Res.err "player is not ascending order" := by
  unfold is_ordered_loop
  have hf : players.length - 1 = (players.length - 3) + 2 := by omega
  rw [hf]
  by_cases hp : p0 < p1
  · simp only [is_ordered_go, h1]
    simp [hp, is_ordered_go, h1]
  · simp only [is_ordered_go, h1]
    simp [hp]

namespace Fix

def sgReqAsc : SG.AppInitiateRequest Nat :=
  { nonce := 1, players := [1, 2], timeout := 2, min_stone_offchain := 0,
    max_stone_onchain := 5 }

def sgReqDesc : SG.AppInitiateRequest Nat := { sgReqAsc with players := [2, 1] }

def sgReqThree : SG.AppInitiateRequest Nat := { sgReqAsc with players := [1, 2, 3] }

def ssReqDesc : SS.AppInitiateRequest Nat := { nonce := 1, players := [2, 1], timeout := 2 }

def msReqAsc : MS.SessionInitiateRequest Nat :=
  { nonce := 1, player_num := 2, players := [1, 2], timeout := 2 }

def msReqDesc : MS.SessionInitiateRequest Nat := { msReqAsc with players := [2, 1] }

def msReqThree : MS.SessionInitiateRequest Nat :=
  { msReqAsc with player_num := 3, players := [1, 2, 3] }

def mgReqAsc : MG.AppInitiateRequest Nat :=
  { nonce := 1, player_num := 2, players := [1, 2], timeout := 2,
    min_stone_offchain := 0, max_stone_onchain := 5 }

def mgReqThree : MG.AppInitiateRequest Nat :=
  { mgReqAsc with player_num := 3, players := [1, 2, 3] }

end Fix

/-- C7 counterexample: the claim states that `initiate` fails when the
participant list is not in strictly ascending order, in each of the
four pallet variants.  The single-session-app `app_initiate` performs
no ordering check: with descending players `[2, 1]` it succeeds and
stores a fresh channel. -/
theorem C7_counterexample_ss_accepts_descending_players :
    SS.app_initiate { nonce := 1, players := [2, 1], timeout := 2 }
        (none : Option (SS.AppInfo Nat)) =
      (Res.ok (), some {
        state := 0, nonce := 1, players := [2, 1], seq_num := 0,
        timeout := 2, deadline := 0, status := AppStatus.Idle }) := by decide

/-- C7 amended: every variant fails when the derived channel id
already exists, and a successful initiate stores a fresh channel with
`seq_num = 0` and status Idle.  The ordering checks differ:
single-gomoku requires exactly two strictly ascending players;
single-session-app performs no ordering check at all; the two multi
pallets compare every previous element against `players[1]`, so they
accept exactly the ascending two-player lists (and singletons) and
reject every list of three or more players, even strictly ascending
ones. -/
theorem C7_amended_initiate_behavior :
    (∀ (A : Type) (inst : LinearOrder A) (req : SG.AppInitiateRequest A) (p0 p1 : A),
      req.players.get? 0 = some p0 → req.players.get? 1 = some p1 →
      (∀ gi, SG.app_initiate req (some gi) = (Res.err "AppId already exists", some gi)) ∧
      (req.players.length = 2 → ¬ p0 < p1 →
        SG.app_initiate req none = (Res.err "players is not asscending order", none)) ∧
      (req.players.length ≠ 2 →
        SG.app_initiate req none = (Res.err "invalid player length", none)) ∧
      (req.players.length = 2 → p0 < p1 →
        SG.app_initiate req none = (Res.ok (), some {
          nonce := req.nonce, players := req.players, seq_num := 0,
          timeout := req.timeout, deadline := 0, status := AppStatus.Idle,
          gomoku_state := {
            board_state := none, stone_num := none, stone_num_onchain := none,
            state_key := none, min_stone_offchain := req.min_stone_offchain,
            max_stone_onchain := req.max_stone_onchain } }))) ∧
    (∀ (A : Type) (req : SS.AppInitiateRequest A) (p0 p1 : A),
      req.players.get? 0 = some p0 → req.players.get? 1 = some p1 →
      (∀ ai, SS.app_initiate req (some ai) = (Res.err "AppId alreads exists", some ai)) ∧
      SS.app_initiate req none = (Res.ok (), some {
        state := 0, nonce := req.nonce, players := req.players, seq_num := 0,
        timeout := req.timeout, deadline := 0, status := AppStatus.Idle })) ∧
    (∀ (A : Type) (inst : LinearOrder A) (req : MS.SessionInitiateRequest A),
      (∀ si, MS.session_initiate req (some si) = (Res.err "session_id is used", some si)) ∧
      (∀ p0 p1, req.players = [p0, p1] → p0 < p1 →
        MS.session_initiate req none = (Res.ok (), some {
          state := 0, players := req.players, player_num := req.player_num,
          seq_num := 0, timeout := req.timeout, deadline := 0,
          status := AppStatus.Idle })) ∧
      (∀ p0 p1, req.players = [p0, p1] → ¬ p0 < p1 →
        MS.session_initiate req none =
          (Res.err "player is not ascending order", none)) ∧
      (3 ≤ req.players.length →
        MS.session_initiate req none =
          (Res.err "player is not ascending order", none))) ∧
    (∀ (A : Type) (inst : LinearOrder A) (req : MG.AppInitiateRequest A),
      (∀ gi, MG.app_initiate req (some gi) = (Res.err "AppId already exists", some gi)) ∧
      (∀ p0 p1, req.players = [p0, p1] → p0 < p1 →
        MG.app_initiate req none = (Res.ok (), some {
          players := req.players, player_num := req.player_num, seq_num := 0,
          timeout := req.timeout, deadline := 0, status := AppStatus.Idle,
          gomoku_state := {
            board_state := none, stone_num := none, stone_num_onchain := none,
            state_key := none, min_stone_offchain := req.min_stone_offchain,
            max_stone_onchain := req.max_stone_onchain } })) ∧
      (∀ p0 p1, req.players = [p0, p1] → ¬ p0 < p1 →
        MG.app_initiate req none = (Res.err "player is not ascending order", none)) ∧
      (3 ≤ req.players.length →
        MG.app_initiate req none = (Res.err "player is not ascending order", none))) := by
  refine ⟨?_, ?_, ?_, ?_⟩
  · intro A inst req p0 p1 h0 h1
    rw [List.get?_eq_getElem?] at h0 h1
    refine ⟨?_, ?_, ?_, ?_⟩
    · intro gi; simp [SG.app_initiate, h0, h1]
    · intro hlen hlt; simp [SG.app_initiate, h0, h1, hlen, hlt]
    · intro hlen; simp [SG.app_initiate, h0, h1, hlen]
    · intro hlen hlt; simp [SG.app_initiate, h0, h1, hlen, hlt]
  · intro A req p0 p1 h0 h1
    rw [List.get?_eq_getElem?] at h0 h1
    refine ⟨?_, ?_⟩
    · intro ai; simp [SS.app_initiate, h0, h1]
    · simp [SS.app_initiate, h0, h1]
  · intro A inst req
    refine ⟨?_, ?_, ?_, ?_⟩
    · intro si; simp [MS.session_initiate]
    · intro p0 p1 hreq hp
      simp [MS.session_initiate, MS.is_ordered_account, is_ordered_loop, is_ordered_go,
        hreq, hp]
    · intro p0 p1 hreq hp
      simp [MS.session_initiate, MS.is_ordered_account, is_ordered_loop, is_ordered_go,
        hreq, hp]
    · intro hlen
      have h0 : req.players.get? 0 = some (req.players.get ⟨0, by omega⟩) :=
        List.get?_eq_get (by omega)
      have h1 : req.players.get? 1 = some (req.players.get ⟨1, by omega⟩) :=
        List.get?_eq_get (by omega)
      have hloop := is_ordered_loop_three req.players (req.players.get ⟨0, by omega⟩)
        (req.players.get ⟨1, by omega⟩) h1 hlen
      rw [List.get?_eq_getElem?] at h0
      simp only [List.get_eq_getElem] at h0 hloop
      simp [MS.session_initiate, MS.is_ordered_account, h0, hloop]
  · intro A inst req
    refine ⟨?_, ?_, ?_, ?_⟩
    · intro gi; simp [MG.app_initiate]
    · intro p0 p1 hreq hp
      simp [MG.app_initiate, MG.is_ordered_account, is_ordered_loop, is_ordered_go,
        hreq, hp]
    · intro p0 p1 hreq hp
      simp [MG.app_initiate, MG.is_ordered_account, is_ordered_loop, is_ordered_go,
        hreq, hp]
    · intro hlen
      have h0 : req.players.get? 0 = some (req.players.get ⟨0, by omega⟩) :=
        List.get?_eq_get (by omega)
      have h1 : req.players.get? 1 = some (req.players.get ⟨1, by omega⟩) :=
        List.get?_eq_get (by omega)
      have hloop := is_ordered_loop_three req.players (req.players.get ⟨0, by omega⟩)
        (req.players.get ⟨1, by omega⟩) h1 hlen
      rw [List.get?_eq_getElem?] at h0
      simp only [List.get_eq_getElem] at h0 hloop
      simp [MG.app_initiate, MG.is_ordered_account, h0, hloop]

/-- C7 witness: the amended initiate behavior evaluated on concrete
requests in every pallet. -/
theorem C7_witness :
    SG.app_initiate Fix.sgReqAsc (some Fix.sgInfo) =
      (Res.err "AppId already exists", some Fix.sgInfo) ∧
    SG.app_initiate Fix.sgReqDesc (none : Option (SG.GomokuInfo Nat)) =
      (Res.err "players is not asscending order", none) ∧
    SG.app_initiate Fix.sgReqThree (none : Option (SG.GomokuInfo Nat)) =
      (Res.err "invalid player length", none) ∧
    SG.app_initiate Fix.sgReqAsc (none : Option (SG.GomokuInfo Nat)) =
      (Res.ok (), some {
        nonce := 1, players := [1, 2], seq_num := 0, timeout := 2,
        deadline := 0, status := AppStatus.Idle,
        gomoku_state := {
          board_state := none, stone_num := none,
          stone_num_onchain := none, state_key := none, min_stone_offchain := 0,
          max_stone_onchain := 5 } }) ∧
    SS.app_initiate Fix.ssReqDesc (some Fix.ssInfoA) =
      (Res.err "AppId alreads exists", some Fix.ssInfoA) ∧
    MS.session_initiate Fix.msReqAsc (none : Option (MS.SessionInfo Nat)) =
      (Res.ok (), some {
        state := 0, players := [1, 2], player_num := 2, seq_num := 0,
        timeout := 2, deadline := 0, status := AppStatus.Idle }) ∧
    MS.session_initiate Fix.msReqDesc (none : Option (MS.SessionInfo Nat)) =
      (Res.err "player is not ascending order", none) ∧
    MS.session_initiate Fix.msReqThree (none : Option (MS.SessionInfo Nat)) =
      (Res.err "player is not ascending order", none) ∧
    MG.app_initiate Fix.mgReqAsc (none : Option (MG.GomokuInfo Nat)) =
      (Res.ok (), some {
        players := [1, 2], player_num := 2, seq_num := 0, timeout := 2,
        deadline := 0, status := AppStatus.Idle,
        gomoku_state := {
          board_state := none, stone_num := none,
          stone_num_onchain := none, state_key := none, min_stone_offchain := 0,
          max_stone_onchain := 5 } }) ∧
    MG.app_initiate Fix.mgReqThree (none : Option (MG.GomokuInfo Nat)) =
      (Res.err "player is not ascending order", none) :=
  ⟨(C7_amended_initiate_behavior.1 Nat inferInstance Fix.sgReqAsc 1 2 rfl rfl).1
      Fix.sgInfo,
    (C7_amended_initiate_behavior.1 Nat inferInstance Fix.sgReqDesc 2 1 rfl rfl).2.1
      rfl (by decide),
    (C7_amended_initiate_behavior.1 Nat inferInstance Fix.sgReqThree 1 2 rfl rfl).2.2.1
      (by decide),
    (C7_amended_initiate_behavior.1 Nat inferInstance Fix.sgReqAsc 1 2 rfl rfl).2.2.2
      rfl (by decide),
    (C7_amended_initiate_behavior.2.1 Nat Fix.ssReqDesc 2 1 rfl rfl).1 Fix.ssInfoA,
    (C7_amended_initiate_behavior.2.2.1 Nat inferInstance Fix.msReqAsc).2.1 1 2 rfl
      (by decide),
    (C7_amended_initiate_behavior.2.2.1 Nat inferInstance Fix.msReqDesc).2.2.1 2 1 rfl
      (by decide),
    (C7_amended_initiate_behavior.2.2.1 Nat inferInstance Fix.msReqThree).2.2.2
      (by decide),
    (C7_amended_initiate_behavior.2.2.2 Nat inferInstance Fix.mgReqAsc).2.1 1 2 rfl
      (by decide),
    (C7_amended_initiate_behavior.2.2.2 Nat inferInstance Fix.mgReqThree).2.2.2
      (by decide)⟩

end Celer

namespace Celer.Fix

/-- A single-gomoku channel in `Settle` with deadline 10, timeout 2. -/
def sgInfoSettle : SG.GomokuInfo Nat :=
  { sgInfo with status := AppStatus.Settle, deadline := 10, seq_num := 3 }

end Celer.Fix

namespace Celer

lemma ss_apply_action_ok {A : Type} (now : Nat) (ai ai2 : SS.AppInfo A)
    (h : SS.apply_action now (some ai) = Res.ok ai2) :
    ai2.status = AppStatus.Action ∧ ai2.seq_num = ai.seq_num + 1 ∧
      ai2.deadline = now + ai.timeout ∧
      (ai.status = AppStatus.Action ∨
        (ai.status = AppStatus.Settle ∧ ai.deadline < now)) := by
  unfold SS.apply_action at h
  repeat' (first | simp only [] at h | split at h)
  all_goals first
    | exact Res.noConfusion h
    | (injection h with h3; subst h3; refine ⟨rfl, rfl, rfl, ?_⟩; tauto)

lemma sg_apply_action_ok {A : Type} (now : Nat) (gi gi2 : SG.GomokuInfo A)
    (h : SG.apply_action gi now = Res.ok gi2) :
    gi2.status = AppStatus.Action ∧ gi2.seq_num = gi.seq_num + 1 ∧
      gi2.deadline = now + gi.timeout ∧
      (gi.status = AppStatus.Action ∨
        (gi.status = AppStatus.Settle ∧ gi.deadline < now)) := by
  unfold SG.apply_action at h
  repeat' (first | simp only [] at h | split at h)
  all_goals first
    | exact Res.noConfusion h
    | (injection h with h3; subst h3; refine ⟨rfl, rfl, rfl, ?_⟩; tauto)

/-- C8: on a non-Finalized channel, `apply_action` succeeds exactly
when status is Action, or status is Settle and the block number is
strictly past the deadline; in the Settle case it sets
`seq_num := seq_num + 1`, `deadline := now + timeout` and
`status := Action`, while a Settle channel whose deadline has not
passed fails with the not-in-action-mode error.  Shown for the two
cited variants (single-session-app and single-gomoku), together with
the lifting to `update_by_action` in single-session-app: a stored
status of Action after a successful call implies the precondition. -/
theorem C8_apply_action_escalation :
    (∀ (A : Type) (now : Nat) (ai : SS.AppInfo A),
      (ai.status = AppStatus.Settle → ai.deadline < now →
        SS.apply_action now (some ai) = Res.ok { ai with
          seq_num := ai.seq_num + 1, deadline := now + ai.timeout,
          status := AppStatus.Action }) ∧
      (ai.status = AppStatus.Settle → ¬ ai.deadline < now →
        SS.apply_action now (some ai) = Res.err "app not in action mode") ∧
      (ai.status = AppStatus.Idle →
        SS.apply_action now (some ai) = Res.err "app not in action mode") ∧
      (∀ ai2, SS.apply_action now (some ai) = Res.ok ai2 →
        ai2.status = AppStatus.Action ∧ ai2.seq_num = ai.seq_num + 1 ∧
        ai2.deadline = now + ai.timeout ∧
        (ai.status = AppStatus.Action ∨
          (ai.status = AppStatus.Settle ∧ ai.deadline < now)))) ∧
    (∀ (A : Type) (now : Nat) (gi : SG.GomokuInfo A),
      (gi.status = AppStatus.Settle → gi.deadline < now →
        SG.apply_action gi now = Res.ok { gi with
          seq_num := gi.seq_num + 1, deadline := now + gi.timeout,
          status := AppStatus.Action }) ∧
      (gi.status = AppStatus.Settle → ¬ gi.deadline < now →
        SG.apply_action gi now = Res.err "app not in action mode") ∧
      (gi.status = AppStatus.Idle →
        SG.apply_action gi now = Res.err "app not in action mode") ∧
      (∀ gi2, SG.apply_action gi now = Res.ok gi2 →
        gi2.status = AppStatus.Action ∧ gi2.seq_num = gi.seq_num + 1 ∧
        gi2.deadline = now + gi.timeout ∧
        (gi.status = AppStatus.Action ∨
          (gi.status = AppStatus.Settle ∧ gi.deadline < now)))) ∧
    (∀ (A : Type) (action now : Nat) (ai ai2 : SS.AppInfo A),
      SS.update_by_action action now (some ai) = (Res.ok (), some ai2) →
      ai2.status = AppStatus.Action →
      (ai.status = AppStatus.Action ∨
        (ai.status = AppStatus.Settle ∧ ai.deadline < now))) := by
  refine ⟨?_, ?_, ?_⟩
  · intro A now ai
    refine ⟨?_, ?_, ?_, ?_⟩
    · intro hs hlt; simp [SS.apply_action, hs, hlt]
    · intro hs hlt; simp [SS.apply_action, hs, hlt]
    · intro hs; simp [SS.apply_action, hs]
    · intro ai2 h; exact ss_apply_action_ok now ai ai2 h
  · intro A now gi
    refine ⟨?_, ?_, ?_, ?_⟩
    · intro hs hlt; simp [SG.apply_action, hs, hlt]
    · intro hs hlt; simp [SG.apply_action, hs, hlt]
    · intro hs; simp [SG.apply_action, hs]
    · intro gi2 h; exact sg_apply_action_ok now gi gi2 h
  · intro A action now ai ai2 h2 hst
    unfold SS.update_by_action at h2
    repeat' (first | simp only [] at h2 | split at h2)
    all_goals injection h2 with h3 h4
    all_goals first
      | exact Res.noConfusion h3
      | skip
    · injection h4 with h5
      have := ss_apply_action_ok now ai _ (by assumption)
      rw [← h5] at hst
      simp at hst
    · injection h4 with h5
      have hga := ss_apply_action_ok now ai _ (by assumption)
      exact hga.2.2.2

/-- C8 witness: the escalation behavior evaluated on concrete Settle
channels before and past the deadline. -/
theorem C8_witness :
    SS.apply_action 11 (some Fix.ssInfoS) = Res.ok { Fix.ssInfoS with
      seq_num := Fix.ssInfoS.seq_num + 1, deadline := 11 + Fix.ssInfoS.timeout,
      status := AppStatus.Action } ∧
    SS.apply_action 10 (some Fix.ssInfoS) = Res.err "app not in action mode" ∧
    SS.apply_action 10 (some Fix.msIdleSS) = Res.err "app not in action mode" ∧
    SG.apply_action Fix.sgInfoSettle 11 = Res.ok { Fix.sgInfoSettle with
      seq_num := Fix.sgInfoSettle.seq_num + 1,
      deadline := 11 + Fix.sgInfoSettle.timeout, status := AppStatus.Action } ∧
    SG.apply_action Fix.sgInfoSettle 10 = Res.err "app not in action mode" ∧
    (Fix.ssInfoS.status = AppStatus.Action ∨
      (Fix.ssInfoS.status = AppStatus.Settle ∧ Fix.ssInfoS.deadline < 11)) :=
  ⟨((C8_apply_action_escalation.1 Nat 11 Fix.ssInfoS).1 (by decide) (by decide)),
    ((C8_apply_action_escalation.1 Nat 10 Fix.ssInfoS).2.1 (by decide) (by decide)),
    ((C8_apply_action_escalation.1 Nat 10 Fix.msIdleSS).2.2.1 (by decide)),
    ((C8_apply_action_escalation.2.1 Nat 11 Fix.sgInfoSettle).1 (by decide) (by decide)),
    ((C8_apply_action_escalation.2.1 Nat 10 Fix.sgInfoSettle).2.1 (by decide) (by decide)),
    (C8_apply_action_escalation.2.2 Nat 0 11 Fix.ssInfoS
      { Fix.ssInfoS with seq_num := 4, deadline := 13, status := AppStatus.Action }
      (by decide) (by decide))⟩

end Celer


namespace Celer

lemma get?_some_lt {α : Type} {l : List α} {n : Nat} {a : α}
    (h : l.get? n = some a) : n < l.length := by
  by_contra hc
  push_neg at hc
  rw [List.get?_eq_none.mpr hc] at h
  cases h

lemma valid_signers_go_ok_or_err {A S : Type} (vf : S → List Nat → A → Bool)
    (sigs : List S) (e : List Nat) (ps : List A) :
    ∀ fuel i, i + fuel = ps.length → ps.length ≤ sigs.length →
    valid_signers_go vf sigs e ps i fuel = Res.ok () ∨
      valid_signers_go vf sigs e ps i fuel = Res.err "Check co-sigs failed" := by
  intro fuel
  induction fuel with
  | zero => intro i hi hlen; left; rfl
  | succ f ih =>
    intro i hi hlen
    have hi1 : i < ps.length := by omega
    have hs : sigs.get? i = some (sigs.get ⟨i, by omega⟩) := List.get?_eq_get _
    have hp : ps.get? i = some (ps.get ⟨i, hi1⟩) := List.get?_eq_get _
    simp only [valid_signers_go, hs, hp]
    by_cases hv : vf (sigs.get ⟨i, by omega⟩) e (ps.get ⟨i, hi1⟩) = true
    · rw [if_pos hv]
      exact ih (i + 1) (by omega) hlen
    · rw [if_neg hv]
      right
      rfl

lemma valid_signers_go_ok_all {A S : Type} (vf : S → List Nat → A → Bool)
    (sigs : List S) (e : List Nat) (ps : List A) :
    ∀ fuel i, i + fuel = ps.length →
    valid_signers_go vf sigs e ps i fuel = Res.ok () →
    ∀ j s p, i ≤ j → sigs.get? j = some s → ps.get? j = some p →
    vf s e p = true := by
  intro fuel
  induction fuel with
  | zero =>
    intro i hi _ j s p hij hjs hjp
    have := get?_some_lt hjp
    omega
  | succ f ih =>
    intro i hi hok j s p hij hjs hjp
    cases hsi : sigs.get? i with
    | none =>
      simp only [valid_signers_go, hsi] at hok
      exact Res.noConfusion hok
    | some s0 =>
      cases hpi : ps.get? i with
      | none =>
        simp only [valid_signers_go, hsi, hpi] at hok
        exact Res.noConfusion hok
      | some p0 =>
        simp only [valid_signers_go, hsi, hpi] at hok
        by_cases hv : vf s0 e p0 = true
        · rw [if_pos hv] at hok
          rcases eq_or_lt_of_le hij with heq | hlt
          · subst heq
            rw [hsi] at hjs
            rw [hpi] at hjp
            injection hjs with hs1
            injection hjp with hp1
            subst hs1
            subst hp1
            exact hv
          · exact ih (i + 1) (by omega) hok j s p hlt hjs hjp
        · rw [if_neg hv] at hok
          exact Res.noConfusion hok

/-- The shared multi-pallet `valid_signers` loop fails with the
co-signature error whenever some listed player's signature is present
but does not verify, provided the signature list covers the player
list (otherwise the loop panics on a missing index). -/
lemma valid_signers_loop_fails {A S : Type} (vf : S → List Nat → A → Bool)
    (sigs : List S) (e : List Nat) (ps : List A) (j : Nat) (s : S) (p : A)
    (hlen : ps.length ≤ sigs.length)
    (hjs : sigs.get? j = some s) (hjp : ps.get? j = some p)
    (hv : vf s e p = false) :
    valid_signers_loop vf sigs e ps = Res.err "Check co-sigs failed" := by
  unfold valid_signers_loop
  rcases valid_signers_go_ok_or_err vf sigs e ps ps.length 0 (by omega) hlen with hok | herr
  · have := valid_signers_go_ok_all vf sigs e ps ps.length 0 (by omega) hok j s p
      (by omega) hjs hjp
    rw [hv] at this
    cases this
  · exact herr

end Celer

namespace Celer.Fix

/-- A single-gomoku proof whose second signature (99) does not verify
for player 2 under `vfS`. -/
def sgProofBad : SG.StateProof Nat Nat := { sgProofOk with sigs := [1, 99] }

/-- A single-session-app proof with two signatures that verify for
neither player under `vfS`. -/
def ssProofBad : SS.StateProof Nat Nat := { ssProof with sigs := [9, 9] }

def msProofBad : MS.StateProof Nat Nat := { msProof with sigs := [1, 99] }

def mgProofBad : MG.StateProof Nat Nat := { app_state := mgProof.app_state, sigs := [1, 99] }

end Celer.Fix

namespace Celer

/-- C3 counterexample: the claim states that a state proof with fewer
signatures than players is rejected with a signature error.  In
single-gomoku, `valid_signers` indexes `signatures[0]` directly, so an
empty signature list panics (out-of-bounds) instead of returning an
error. -/
theorem C3_counterexample_missing_sig_panics :
    SG.update_by_state Fix.vfS Fix.encSG Fix.sgProofNoSig 3 (some Fix.sgInfo) =
      (Res.crash, some Fix.sgInfo) := by decide

/-- C3 amended: in every pallet variant, a state proof in which every
required signature is present but at least one does not verify against
the required player's key over the canonical encoding of the app state
(for single-session-app: under neither assignment order of its two
signatures) is rejected by `update_by_state` with the error
"Check co-sigs failed" and leaves the stored channel unchanged, for
every value of the proof's sequence number; multi-session-app
additionally requires the signature count to equal `player_num`.  A
proof with fewer signatures than required instead panics on
out-of-bounds indexing (single-gomoku, single-session-app,
multi-gomoku), as the counterexample shows. -/
theorem C3_amended_bad_signature_rejected :
    (∀ (A S H : Type) (vf : S → List Nat → A → Bool) (enc : SG.AppState H → List Nat)
        (sp : SG.StateProof H S) (now : Nat) (gi : SG.GomokuInfo A) (s0 s1 : S)
        (p0 p1 : A),
      sp.sigs.get? 0 = some s0 → sp.sigs.get? 1 = some s1 →
      gi.players.get? 0 = some p0 → gi.players.get? 1 = some p1 →
      (vf s0 (enc sp.app_state) p0 = false ∨ vf s1 (enc sp.app_state) p1 = false) →
      SG.update_by_state vf enc sp now (some gi) =
        (Res.err "Check co-sigs failed", some gi)) ∧
    (∀ (A S H : Type) (vf : S → List Nat → A → Bool) (enc : SS.AppState H → List Nat)
        (sp : SS.StateProof H S) (now : Nat) (ai : SS.AppInfo A) (s1 s2 : S)
        (p0 p1 : A),
      sp.sigs.get? 0 = some s1 → sp.sigs.get? 1 = some s2 →
      ai.players.get? 0 = some p0 → ai.players.get? 1 = some p1 →
      ((vf s1 (enc sp.app_state) p0 && vf s2 (enc sp.app_state) p1) ||
        (vf s1 (enc sp.app_state) p1 && vf s2 (enc sp.app_state) p0)) = false →
      SS.update_by_state vf enc sp now (some ai) =
        (Res.err "Check co-sigs failed", some ai)) ∧
    (∀ (A S H : Type) (vf : S → List Nat → A → Bool) (enc : MS.AppState H → List Nat)
        (sp : MS.StateProof H S) (now : Nat) (si : MS.SessionInfo A) (j : Nat) (s : S)
        (p : A),
      u8 sp.sigs.length = si.player_num →
      si.players.length ≤ sp.sigs.length →
      sp.sigs.get? j = some s → si.players.get? j = some p →
      vf s (enc sp.app_state) p = false →
      MS.update_by_state vf enc sp now (some si) =
        (Res.err "Check co-sigs failed", some si)) ∧
    (∀ (A S H : Type) (vf : S → List Nat → A → Bool) (enc : MG.AppState H → List Nat)
        (sp : MG.StateProof H S) (now : Nat) (gi : MG.GomokuInfo A) (j : Nat) (s : S)
        (p : A),
      gi.players.length ≤ sp.sigs.length →
      sp.sigs.get? j = some s → gi.players.get? j = some p →
      vf s (enc sp.app_state) p = false →
      MG.update_by_state vf enc sp now (some gi) =
        (Res.err "Check co-sigs failed", some gi)) := by
  refine ⟨?_, ?_, ?_, ?_⟩
  · intro A S H vf enc sp now gi s0 s1 p0 p1 h0s h1s h0p h1p hv
    have hvs : SG.valid_signers vf sp.sigs (enc sp.app_state) gi.players =
        Res.err "Check co-sigs failed" := by
      unfold SG.valid_signers
      simp only [h0s, h1s, h0p, h1p]
      rcases hv with hv | hv
      · simp [hv]
      · by_cases hv0 : vf s0 (enc sp.app_state) p0 = true
        · simp [hv0, hv]
        · simp [hv0]
    simp [SG.update_by_state, SG.intend_settle, hvs]
  · intro A S H vf enc sp now ai s1 s2 p0 p1 h0s h1s h0p h1p hv
    have hvs : SS.valid_signers vf sp.sigs (enc sp.app_state) ai.players =
        Res.err "Check co-sigs failed" := by
      unfold SS.valid_signers
      simp only [h0s, h1s, h0p, h1p]
      simp [hv]
    simp [SS.update_by_state, SS.intend_settle, hvs]
  · intro A S H vf enc sp now si j s p hnum hlen hjs hjp hv
    have hvs : MS.valid_signers vf sp.sigs (enc sp.app_state) si.players =
        Res.err "Check co-sigs failed" :=
      valid_signers_loop_fails vf sp.sigs (enc sp.app_state) si.players j s p hlen hjs
        hjp hv
    simp [MS.update_by_state, MS.intend_settle, MS.valid_signers] at hvs ⊢
    simp [hvs, hnum]
  · intro A S H vf enc sp now gi j s p hlen hjs hjp hv
    have hvs : MG.valid_signers vf sp.sigs (enc sp.app_state) gi.players =
        Res.err "Check co-sigs failed" :=
      valid_signers_loop_fails vf sp.sigs (enc sp.app_state) gi.players j s p hlen hjs
        hjp hv
    simp [MG.update_by_state, MG.intend_settle, MG.valid_signers] at hvs ⊢
    simp [hvs]

/-- C3 witness: bad-signature proofs rejected on concrete channels in
each pallet, at proof sequence number 5. -/
theorem C3_witness :
    SG.update_by_state Fix.vfS Fix.encSG Fix.sgProofBad 3 (some Fix.sgInfo) =
      (Res.err "Check co-sigs failed", some Fix.sgInfo) ∧
    SS.update_by_state Fix.vfS Fix.encSS Fix.ssProofBad 3 (some Fix.ssInfoA) =
      (Res.err "Check co-sigs failed", some Fix.ssInfoA) ∧
    MS.update_by_state Fix.vfS Fix.encMS Fix.msProofBad 3 (some Fix.msInfo) =
      (Res.err "Check co-sigs failed", some Fix.msInfo) ∧
    MG.update_by_state Fix.vfS Fix.encMG Fix.mgProofBad 3 (some Fix.mgInfo) =
      (Res.err "Check co-sigs failed", some Fix.mgInfo) :=
  ⟨C3_amended_bad_signature_rejected.1 Nat Nat Nat Fix.vfS Fix.encSG Fix.sgProofBad 3
      Fix.sgInfo 1 99 1 2 rfl rfl rfl rfl (Or.inr (by decide)),
    C3_amended_bad_signature_rejected.2.1 Nat Nat Nat Fix.vfS Fix.encSS Fix.ssProofBad 3
      Fix.ssInfoA 9 9 1 2 rfl rfl rfl rfl (by decide),
    C3_amended_bad_signature_rejected.2.2.1 Nat Nat Nat Fix.vfS Fix.encMS Fix.msProofBad 3
      Fix.msInfo 1 99 2 (by decide) (by decide) rfl rfl (by decide),
    C3_amended_bad_signature_rejected.2.2.2 Nat Nat Nat Fix.vfS Fix.encMG Fix.mgProofBad 3
      Fix.mgInfo 1 99 2 (by decide) rfl rfl (by decide)⟩

end Celer

namespace Celer

lemma mg_apply_action_ok_store {A : Type} (now : Nat)
    (store : Option (MG.GomokuInfo A)) (gi1 : MG.GomokuInfo A)
    (h : MG.apply_action now store = Res.ok gi1) :
    ∃ gi0, store = some gi0 ∧ gi1.players = gi0.players := by
  cases store with
  | none => simp [MG.apply_action] at h
  | some gi0 =>
    refine ⟨gi0, rfl, ?_⟩
    unfold MG.apply_action at h
    repeat' (first | simp only [] at h | split at h)
    all_goals first
      | exact Res.noConfusion h
      | (injection h with h3; rw [← h3])

lemma mg_win_game_err {A : Type} (w : Nat) (gi : MG.GomokuInfo A) (e : String)
    (h : MG.win_game w gi = Res.err e) : ¬ w ≤ 2 := by
  intro hw
  unfold MG.win_game at h
  rw [if_pos hw] at h
  repeat' (first | simp only [] at h | split at h)
  all_goals exact Res.noConfusion h

lemma mg_turn_check_le {A : Type} [LinearOrder A] (caller : A) (players : List A)
    (turn_color black_id : Nat) (hpl : players.length ≤ 2)
    (h : MG.turn_caller_check caller players turn_color black_id = Res.ok ()) :
    turn_color ≤ 2 := by
  unfold MG.turn_caller_check at h
  by_cases hb1 : black_id = 1
  · rw [if_pos hb1] at h
    by_cases ht0 : turn_color = 0
    · rw [if_pos ht0] at h
      exact Res.noConfusion h
    · rw [if_neg ht0] at h
      cases hg : players.get? (turn_color - 1) with
      | none => rw [hg] at h; exact Res.noConfusion h
      | some p =>
        have := get?_some_lt hg
        omega
  · rw [if_neg hb1] at h
    by_cases hb2 : black_id = 2
    · rw [if_pos hb2] at h
      by_cases ht : 2 < turn_color
      · rw [if_pos ht] at h
        exact Res.noConfusion h
      · omega
    · rw [if_neg hb2] at h
      exact Res.noConfusion h

end Celer

namespace Celer

/-- C9: in every pallet variant, every public mutating operation that
returns a dispatch error leaves the stored channel slot exactly as it
was before the call (every error is raised before the first storage
write).  For multi-gomoku `update_by_action` — whose first write
precedes the five-in-a-row check — this holds for channels with at
most two players, which is every channel its `app_initiate` can
create. -/
theorem C9_errors_leave_storage_unchanged :
    (∀ (A : Type) (inst : LinearOrder A) (req : SG.AppInitiateRequest A)
        (store : Option (SG.GomokuInfo A)) (e : String) (st2 : Option (SG.GomokuInfo A)),
      SG.app_initiate req store = (Res.err e, st2) → st2 = store) ∧
    (∀ (A S H : Type) (vf : S → List Nat → A → Bool) (enc : SG.AppState H → List Nat)
        (sp : SG.StateProof H S) (now : Nat) (store : Option (SG.GomokuInfo A))
        (e : String) (st2 : Option (SG.GomokuInfo A)),
      SG.update_by_state vf enc sp now store = (Res.err e, st2) → st2 = store) ∧
    (∀ (A : Type) (inst : LinearOrder A) (caller : A) (action : List Nat) (now : Nat)
        (store : Option (SG.GomokuInfo A)) (e : String) (st2 : Option (SG.GomokuInfo A)),
      SG.update_by_action caller action now store = (Res.err e, st2) → st2 = store) ∧
    (∀ (A : Type) (now : Nat) (store : Option (SG.GomokuInfo A)) (e : String)
        (st2 : Option (SG.GomokuInfo A)),
      SG.finalize_on_action_timeout now store = (Res.err e, st2) → st2 = store) ∧
    (∀ (A : Type) (req : SS.AppInitiateRequest A) (store : Option (SS.AppInfo A))
        (e : String) (st2 : Option (SS.AppInfo A)),
      SS.app_initiate req store = (Res.err e, st2) → st2 = store) ∧
    (∀ (A S H : Type) (vf : S → List Nat → A → Bool) (enc : SS.AppState H → List Nat)
        (sp : SS.StateProof H S) (now : Nat) (store : Option (SS.AppInfo A))
        (e : String) (st2 : Option (SS.AppInfo A)),
      SS.update_by_state vf enc sp now store = (Res.err e, st2) → st2 = store) ∧
    (∀ (A : Type) (action now : Nat) (store : Option (SS.AppInfo A)) (e : String)
        (st2 : Option (SS.AppInfo A)),
      SS.update_by_action action now store = (Res.err e, st2) → st2 = store) ∧
    (∀ (A : Type) (now : Nat) (store : Option (SS.AppInfo A)) (e : String)
        (st2 : Option (SS.AppInfo A)),
      SS.finalize_on_action_timeout now store = (Res.err e, st2) → st2 = store) ∧
    (∀ (A : Type) (inst : LinearOrder A) (req : MS.SessionInitiateRequest A)
        (store : Option (MS.SessionInfo A)) (e : String) (st2 : Option (MS.SessionInfo A)),
      MS.session_initiate req store = (Res.err e, st2) → st2 = store) ∧
    (∀ (A S H : Type) (vf : S → List Nat → A → Bool) (enc : MS.AppState H → List Nat)
        (sp : MS.StateProof H S) (now : Nat) (store : Option (MS.SessionInfo A))
        (e : String) (st2 : Option (MS.SessionInfo A)),
      MS.update_by_state vf enc sp now store = (Res.err e, st2) → st2 = store) ∧
    (∀ (A : Type) (action now : Nat) (store : Option (MS.SessionInfo A)) (e : String)
        (st2 : Option (MS.SessionInfo A)),
      MS.update_by_action action now store = (Res.err e, st2) → st2 = store) ∧
    (∀ (A : Type) (now : Nat) (store : Option (MS.SessionInfo A)) (e : String)
        (st2 : Option (MS.SessionInfo A)),
      MS.finalize_on_action_timeout now store = (Res.err e, st2) → st2 = store) ∧
    (∀ (A : Type) (inst : LinearOrder A) (req : MG.AppInitiateRequest A)
        (store : Option (MG.GomokuInfo A)) (e : String) (st2 : Option (MG.GomokuInfo A)),
      MG.app_initiate req store = (Res.err e, st2) → st2 = store) ∧
    (∀ (A S H : Type) (vf : S → List Nat → A → Bool) (enc : MG.AppState H → List Nat)
        (sp : MG.StateProof H S) (now : Nat) (store : Option (MG.GomokuInfo A))
        (e : String) (st2 : Option (MG.GomokuInfo A)),
      MG.update_by_state vf enc sp now store = (Res.err e, st2) → st2 = store) ∧
    (∀ (A : Type) (inst : LinearOrder A) (caller : A) (action : List Nat) (now : Nat)
        (store : Option (MG.GomokuInfo A)),
      (∀ gi, store = some gi → gi.players.length ≤ 2) →
      ∀ (e : String) (st2 : Option (MG.GomokuInfo A)),
      MG.update_by_action caller action now store = (Res.err e, st2) → st2 = store) ∧
    (∀ (A : Type) (now : Nat) (store : Option (MG.GomokuInfo A)) (e : String)
        (st2 : Option (MG.GomokuInfo A)),
      MG.finalize_on_action_timeout now store = (Res.err e, st2) → st2 = store) := by
  refine ⟨?_, ?_, ?_, ?_, ?_, ?_, ?_, ?_, ?_, ?_, ?_, ?_, ?_, ?_, ?_, ?_⟩
  · intro A inst req store e st2 h
    unfold SG.app_initiate at h
    repeat' (first | simp only [] at h | split at h)
    all_goals injection h with h1 h2
    all_goals first
      | exact Res.noConfusion h1
      | exact h2.symm
  · intro A S H vf enc sp now store e st2 h
    unfold SG.update_by_state at h
    repeat' (first | simp only [] at h | split at h)
    all_goals injection h with h1 h2
    all_goals first
      | exact Res.noConfusion h1
      | exact h2.symm
  · intro A inst caller action now store e st2 h
    unfold SG.update_by_action at h
    repeat' (first | simp only [] at h | split at h)
    all_goals injection h with h1 h2
    all_goals first
      | exact Res.noConfusion h1
      | exact h2.symm
  · intro A now store e st2 h
    unfold SG.finalize_on_action_timeout SG.finalize_due at h
    repeat' (first | simp only [] at h | split at h)
    all_goals injection h with h1 h2
    all_goals first
      | exact Res.noConfusion h1
      | exact h2.symm
  · intro A req store e st2 h
    unfold SS.app_initiate at h
    repeat' (first | simp only [] at h | split at h)
    all_goals injection h with h1 h2
    all_goals first
      | exact Res.noConfusion h1
      | exact h2.symm
  · intro A S H vf enc sp now store e st2 h
    unfold SS.update_by_state at h
    repeat' (first | simp only [] at h | split at h)
    all_goals injection h with h1 h2
    all_goals first
      | exact Res.noConfusion h1
      | exact h2.symm
  · intro A action now store e st2 h
    unfold SS.update_by_action at h
    repeat' (first | simp only [] at h | split at h)
    all_goals injection h with h1 h2
    all_goals first
      | exact Res.noConfusion h1
      | exact h2.symm
  · intro A now store e st2 h
    unfold SS.finalize_on_action_timeout at h
    repeat' (first | simp only [] at h | split at h)
    all_goals injection h with h1 h2
    all_goals first
      | exact Res.noConfusion h1
      | exact h2.symm
  · intro A inst req store e st2 h
    unfold MS.session_initiate at h
    repeat' (first | simp only [] at h | split at h)
    all_goals injection h with h1 h2
    all_goals first
      | exact Res.noConfusion h1
      | exact h2.symm
  · intro A S H vf enc sp now store e st2 h
    unfold MS.update_by_state at h
    repeat' (first | simp only [] at h | split at h)
    all_goals injection h with h1 h2
    all_goals first
      | exact Res.noConfusion h1
      | exact h2.symm
  · intro A action now store e st2 h
    unfold MS.update_by_action at h
    repeat' (first | simp only [] at h | split at h)
    all_goals injection h with h1 h2
    all_goals first
      | exact Res.noConfusion h1
      | exact h2.symm
  · intro A now store e st2 h
    unfold MS.finalize_on_action_timeout at h
    repeat' (first | simp only [] at h | split at h)
    all_goals injection h with h1 h2
    all_goals first
      | exact Res.noConfusion h1
      | exact h2.symm
  · intro A inst req store e st2 h
    unfold MG.app_initiate at h
    repeat' (first | simp only [] at h | split at h)
    all_goals injection h with h1 h2
    all_goals first
      | exact Res.noConfusion h1
      | exact h2.symm
  · intro A S H vf enc sp now store e st2 h
    unfold MG.update_by_state at h
    repeat' (first | simp only [] at h | split at h)
    all_goals injection h with h1 h2
    all_goals first
      | exact Res.noConfusion h1
      | exact h2.symm
  · intro A inst caller action now store hpl e st2 h
    cases haa : MG.apply_action now store with
    | err e2 =>
      unfold MG.update_by_action at h
      rw [haa] at h
      injection h with h1 h2
      exact h2.symm
    | crash =>
      unfold MG.update_by_action at h
      rw [haa] at h
      injection h with h1 h2
      exact Res.noConfusion h1
    | ok gi1 =>
      obtain ⟨gi0, hst0, hpl1⟩ := mg_apply_action_ok_store now store gi1 haa
      have hlen2 : gi1.players.length ≤ 2 := by rw [hpl1]; exact hpl gi0 hst0
      unfold MG.update_by_action at h
      rw [haa] at h
      repeat' (first | simp only [] at h | split at h)
      all_goals (try (injection h with h1 h2))
      all_goals (try (exact Res.noConfusion h1))
      all_goals (try (exact h2.symm))
      all_goals exfalso
      all_goals (
        have hturn := mg_turn_check_le _ gi1.players _ _ hlen2 (by assumption)
        have hwg := mg_win_game_err _ _ _ (by assumption)
        simp only [u8] at hwg
        omega)
  · intro A now store e st2 h
    unfold MG.finalize_on_action_timeout MG.finalize_due at h
    repeat' (first | simp only [] at h | split at h)
    all_goals injection h with h1 h2
    all_goals first
      | exact Res.noConfusion h1
      | exact h2.symm

end Celer

namespace Celer

/-- C9 witness: one concrete failing call per operation and variant,
each leaving the storage slot unchanged. -/
theorem C9_witness :
    ((none : Option (SG.GomokuInfo Nat)) = none) ∧
    ((none : Option (SG.GomokuInfo Nat)) = none) ∧
    ((none : Option (SG.GomokuInfo Nat)) = none) ∧
    ((none : Option (SG.GomokuInfo Nat)) = none) ∧
    (some Fix.ssInfoA = some Fix.ssInfoA) ∧
    ((none : Option (SS.AppInfo Nat)) = none) ∧
    ((none : Option (SS.AppInfo Nat)) = none) ∧
    ((none : Option (SS.AppInfo Nat)) = none) ∧
    ((none : Option (MS.SessionInfo Nat)) = none) ∧
    ((none : Option (MS.SessionInfo Nat)) = none) ∧
    ((none : Option (MS.SessionInfo Nat)) = none) ∧
    ((none : Option (MS.SessionInfo Nat)) = none) ∧
    (some Fix.mgInfo = some Fix.mgInfo) ∧
    ((none : Option (MG.GomokuInfo Nat)) = none) ∧
    ((none : Option (MG.GomokuInfo Nat)) = none) ∧
    ((none : Option (MG.GomokuInfo Nat)) = none) :=
  ⟨C9_errors_leave_storage_unchanged.1 Nat inferInstance Fix.sgReqDesc none
      "players is not asscending order" none (by decide),
    C9_errors_leave_storage_unchanged.2.1 Nat Nat Nat Fix.vfS Fix.encSG Fix.sgProofOk 3
      none "SingleGomokuInfoNotExist" none (by decide),
    C9_errors_leave_storage_unchanged.2.2.1 Nat inferInstance 1 [0, 0] 3 none
      "SingleGomokuInfoNotExist" none (by decide),
    C9_errors_leave_storage_unchanged.2.2.2.1 Nat 3 none "SingleGomokuInfoNotExist" none
      (by decide),
    C9_errors_leave_storage_unchanged.2.2.2.2.1 Nat Fix.ssReqDesc (some Fix.ssInfoA)
      "AppId alreads exists" (some Fix.ssInfoA) (by decide),
    C9_errors_leave_storage_unchanged.2.2.2.2.2.1 Nat Nat Nat Fix.vfS Fix.encSS
      Fix.ssProof 3 none "AppInfoNotExist" none (by decide),
    C9_errors_leave_storage_unchanged.2.2.2.2.2.2.1 Nat 0 3 none "AppInfoNotExist" none
      (by decide),
    C9_errors_leave_storage_unchanged.2.2.2.2.2.2.2.1 Nat 3 none "AppInfoNotExist" none
      (by decide),
    C9_errors_leave_storage_unchanged.2.2.2.2.2.2.2.2.1 Nat inferInstance Fix.msReqDesc
      none "player is not ascending order" none (by decide),
    C9_errors_leave_storage_unchanged.2.2.2.2.2.2.2.2.2.1 Nat Nat Nat Fix.vfS Fix.encMS
      Fix.msProof 3 none "SessionInfoNotExist" none (by decide),
    C9_errors_leave_storage_unchanged.2.2.2.2.2.2.2.2.2.2.1 Nat 0 3 none
      "SessionInfoNotExist" none (by decide),
    C9_errors_leave_storage_unchanged.2.2.2.2.2.2.2.2.2.2.2.1 Nat 3 none
      "SessionInfoNotExist" none (by decide),
    C9_errors_leave_storage_unchanged.2.2.2.2.2.2.2.2.2.2.2.2.1 Nat inferInstance
      Fix.mgReqAsc (some Fix.mgInfo) "AppId already exists" (some Fix.mgInfo) (by decide),
    C9_errors_leave_storage_unchanged.2.2.2.2.2.2.2.2.2.2.2.2.2.1 Nat Nat Nat Fix.vfT
      Fix.encMG Fix.mgProof 10 none "MultiGomokuInfoNotExist" none (by decide),
    C9_errors_leave_storage_unchanged.2.2.2.2.2.2.2.2.2.2.2.2.2.2.1 Nat inferInstance 1
      [0, 0] 3 none (by intro gi hgi; cases hgi) "MultiGomokuInfoNotExist" none
      (by decide),
    C9_errors_leave_storage_unchanged.2.2.2.2.2.2.2.2.2.2.2.2.2.2.2 Nat 3 none
      "MultiGomokuInfoNotExist" none (by decide)⟩

end Celer


namespace Celer

/-- Total cell lookup used by the specification-side win-check
description: the board value at a flat index, 0 when out of range. -/
def cell (b : List Nat) (i : Nat) : Nat := (b.get? i).getD 0

lemma get?_eq_some_cell {b : List Nat} {i : Nat} (h : i < b.length) :
    b.get? i = some (cell b i) := by
  unfold cell
  cases hq : b.get? i with
  | none =>
    have := List.get?_eq_none.mp hq
    omega
  | some v => rfl

/-- Specification-side description of one probe of the win check. -/
def dirMatches (off : Nat) (b : List Nat) (x y : Nat) (dx dy : Int) (i : Nat) : Bool :=
  check_boundary (probe x dx i) (probe y dy i) &&
    decide (cell b (state_index off (probe x dx i) (probe y dy i)) =
      cell b (state_index off x y))

/-- Specification-side count of contiguous matching cells. -/
def specFrom (off : Nat) (b : List Nat) (x y : Nat) (dx dy : Int) : Nat → Nat → Nat
  | _, 0 => 0
  | i, fuel + 1 =>
    if dirMatches off b x y dx dy i then specFrom off b x y dx dy (i + 1) fuel + 1
    else 0

/-- Capped directional count. -/
def specCount (off : Nat) (b : List Nat) (x y : Nat) (dx dy : Int) : Nat :=
  specFrom off b x y dx dy 1 5

lemma count_stone_go_spec (off : Nat) (b : List Nat) (x y : Nat) (dx dy : Int)
    (hlen : b.length = off + 225) (hx : x < 15) (hy : y < 15) :
    ∀ fuel i, i + fuel = 6 → 1 ≤ i →
    count_stone_go off b x y dx dy i (fuel + 1) =
      (if specFrom off b x y dx dy i fuel = fuel then Res.ok none
       else Res.ok (some (i + specFrom off b x y dx dy i fuel))) := by
  have hidx0 : state_index off x y < b.length := by
    simp only [state_index, hlen]
    omega
  intro fuel
  induction fuel with
  | zero =>
    intro i hi h1
    have h6 : i = 6 := by omega
    subst h6
    simp [count_stone_go, specFrom]
  | succ k ih =>
    intro i hi h1
    have hi5 : i ≤ 5 := by omega
    rw [count_stone_go]
    rw [if_pos hi5]
    simp only []
    cases hbd : check_boundary (probe x dx i) (probe y dy i) with
    | false =>
      have hdm : dirMatches off b x y dx dy i = false := by
        unfold dirMatches
        rw [hbd]
        rfl
      simp only [Bool.false_eq_true, if_false]
      rw [specFrom]
      rw [hdm]
      simp only [Bool.false_eq_true, if_false]
      rw [if_neg (by omega)]
      rw [Nat.add_zero]
    | true =>
      have hxy : probe x dx i < 15 ∧ probe y dy i < 15 := by
        simpa [check_boundary] using hbd
      have hidx1 : state_index off (probe x dx i) (probe y dy i) < b.length := by
        simp only [state_index, hlen]
        omega
      rw [if_pos rfl]
      rw [get?_eq_some_cell hidx1, get?_eq_some_cell hidx0]
      simp only []
      by_cases heq : cell b (state_index off (probe x dx i) (probe y dy i)) =
          cell b (state_index off x y)
      · have hdm : dirMatches off b x y dx dy i = true := by
          unfold dirMatches
          rw [hbd, decide_eq_true heq]
          rfl
        rw [if_pos heq]
        rw [ih (i + 1) (by omega) (by omega)]
        rw [specFrom]
        rw [hdm]
        simp only [if_true]
        by_cases hsp : specFrom off b x y dx dy (i + 1) k = k
        · rw [if_pos hsp]
          rw [if_pos (by omega)]
        · rw [if_neg hsp]
          rw [if_neg (by omega)]
          have harith : i + 1 + specFrom off b x y dx dy (i + 1) k =
              i + (specFrom off b x y dx dy (i + 1) k + 1) := by omega
          rw [harith]
      · have hdm : dirMatches off b x y dx dy i = false := by
          unfold dirMatches
          rw [hbd, decide_eq_false heq]
          rfl
        rw [if_neg heq]
        rw [specFrom]
        rw [hdm]
        simp only [Bool.false_eq_true, if_false]
        rw [if_neg (by omega)]
        rw [Nat.add_zero]

lemma count_stone_spec (off : Nat) (b : List Nat) (x y : Nat) (dx dy : Int)
    (hlen : b.length = off + 225) (hx : x < 15) (hy : y < 15) :
    count_stone off b x y dx dy =
      (if specCount off b x y dx dy = 5 then Res.ok none
       else Res.ok (some (specCount off b x y dx dy + 1))) := by
  unfold count_stone specCount
  have h6 : (6 : Nat) = 5 + 1 := rfl
  rw [h6]
  rw [count_stone_go_spec off b x y dx dy hlen hx hy 5 1 (by omega) (by omega)]
  rw [Nat.add_comm 1 (specFrom off b x y dx dy 1 5)]

lemma check_five_spec (off : Nat) (b : List Nat) (x y : Nat) (dxp dyp dxn dyn : Int)
    (hlen : b.length = off + 225) (hx : x < 15) (hy : y < 15)
    (hdx : wrapI8 (-1 * dxp) = dxn) (hdy : wrapI8 (-1 * dyp) = dyn) :
    check_five off b x y dxp dyp =
      (if specCount off b x y dxp dyp = 5 ∨ specCount off b x y dxn dyn = 5 then
        Res.crash
       else Res.ok (decide (5 ≤
         specCount off b x y dxp dyp + specCount off b x y dxn dyn + 1))) := by
  unfold check_five
  rw [hdx, hdy]
  rw [count_stone_spec off b x y dxp dyp hlen hx hy]
  rw [count_stone_spec off b x y dxn dyn hlen hx hy]
  by_cases h1 : specCount off b x y dxp dyp = 5
  · rw [if_pos h1]
    rw [if_pos (Or.inl h1)]
  · rw [if_neg h1]
    by_cases h2 : specCount off b x y dxn dyn = 5
    · rw [if_pos h2]
      rw [if_pos (Or.inr h2)]
    · rw [if_neg h2]
      rw [if_neg (by tauto)]
      simp only []
      have harith : specCount off b x y dxp dyp + 1 + (specCount off b x y dxn dyn + 1 - 1) =
          specCount off b x y dxp dyp + specCount off b x y dxn dyn + 1 := by omega
      rw [harith]

end Celer

namespace Celer.Fix

/-- A 227-byte single-gomoku board with six black stones in a row at
coordinates (0,0) through (5,0). -/
def sgSixRow : List Nat :=
  ((((((List.replicate 227 0).set 2 1).set 17 1).set 32 1).set 47 1).set 62 1).set 77 1

/-- A 227-byte single-gomoku board with a single black stone at (0,0). -/
def sgOneStone : List Nat := (List.replicate 227 0).set 2 1

end Celer.Fix

namespace Celer

/-- C5 counterexample: the claim states that the win check evaluates
to a boolean for every reachable board, including runs longer than
five.  On a board holding six stones of one color in a row, checking
the newly placed end stone finds five further matching stones in the
negative direction, `count_stone` returns `None`, and the `unwrap` in
`check_five` panics. -/
theorem C5_counterexample_check_five_panics :
    check_five 2 Fix.sgSixRow 5 0 1 0 = Res.crash := by decide

/-- C5 amended: for a 227-byte board and an on-board origin, the
single-gomoku win check behaves exactly as described — per axis it
counts contiguous same-color cells in the positive direction and in
the negative direction (each capped), declares a win exactly when a
positive count plus negative count plus one (the origin) reaches 5,
and terminates counting at off-board or different-color cells — but
it panics (instead of returning a boolean) whenever the count in some
probed direction reaches five further matching stones; when no
direction overruns, the four-axis check returns exactly the
is-there-a-win boolean. -/
theorem C5_amended_check_five (b : List Nat) (x y : Nat)
    (hlen : b.length = 227) (hx : x < 15) (hy : y < 15) :
    (check_five 2 b x y 1 0 =
      (if specCount 2 b x y 1 0 = 5 ∨ specCount 2 b x y (-1) 0 = 5 then Res.crash
       else Res.ok (decide (5 ≤ specCount 2 b x y 1 0 + specCount 2 b x y (-1) 0 + 1)))) ∧
    (check_five 2 b x y 0 1 =
      (if specCount 2 b x y 0 1 = 5 ∨ specCount 2 b x y 0 (-1) = 5 then Res.crash
       else Res.ok (decide (5 ≤ specCount 2 b x y 0 1 + specCount 2 b x y 0 (-1) + 1)))) ∧
    (check_five 2 b x y 1 1 =
      (if specCount 2 b x y 1 1 = 5 ∨ specCount 2 b x y (-1) (-1) = 5 then Res.crash
       else Res.ok (decide (5 ≤ specCount 2 b x y 1 1 + specCount 2 b x y (-1) (-1) + 1)))) ∧
    (check_five 2 b x y 1 (-1) =
      (if specCount 2 b x y 1 (-1) = 5 ∨ specCount 2 b x y (-1) 1 = 5 then Res.crash
       else Res.ok (decide (5 ≤ specCount 2 b x y 1 (-1) + specCount 2 b x y (-1) 1 + 1)))) ∧
    ((specCount 2 b x y 1 0 ≠ 5 ∧ specCount 2 b x y (-1) 0 ≠ 5 ∧
      specCount 2 b x y 0 1 ≠ 5 ∧ specCount 2 b x y 0 (-1) ≠ 5 ∧
      specCount 2 b x y 1 1 ≠ 5 ∧ specCount 2 b x y (-1) (-1) ≠ 5 ∧
      specCount 2 b x y 1 (-1) ≠ 5 ∧ specCount 2 b x y (-1) 1 ≠ 5) →
      check_five_dirs 2 b x y = Res.ok (decide (
        5 ≤ specCount 2 b x y 1 0 + specCount 2 b x y (-1) 0 + 1 ∨
        5 ≤ specCount 2 b x y 0 1 + specCount 2 b x y 0 (-1) + 1 ∨
        5 ≤ specCount 2 b x y 1 1 + specCount 2 b x y (-1) (-1) + 1 ∨
        5 ≤ specCount 2 b x y 1 (-1) + specCount 2 b x y (-1) 1 + 1))) := by
  have hlen2 : b.length = 2 + 225 := by omega
  have hc10 := check_five_spec 2 b x y 1 0 (-1) 0 hlen2 hx hy (by decide) (by decide)
  have hc01 := check_five_spec 2 b x y 0 1 0 (-1) hlen2 hx hy (by decide) (by decide)
  have hc11 := check_five_spec 2 b x y 1 1 (-1) (-1) hlen2 hx hy (by decide) (by decide)
  have hc1m := check_five_spec 2 b x y 1 (-1) (-1) 1 hlen2 hx hy (by decide) (by decide)
  refine ⟨hc10, hc01, hc11, hc1m, ?_⟩
  rintro ⟨n1, n2, n3, n4, n5, n6, n7, n8⟩
  unfold check_five_dirs
  rw [hc10, hc01, hc11, hc1m]
  rw [if_neg (by tauto), if_neg (by tauto), if_neg (by tauto), if_neg (by tauto)]
  by_cases hT1 : 5 ≤ specCount 2 b x y 1 0 + specCount 2 b x y (-1) 0 + 1 <;>
    by_cases hT2 : 5 ≤ specCount 2 b x y 0 1 + specCount 2 b x y 0 (-1) + 1 <;>
    by_cases hT3 : 5 ≤ specCount 2 b x y 1 1 + specCount 2 b x y (-1) (-1) + 1 <;>
    by_cases hT4 : 5 ≤ specCount 2 b x y 1 (-1) + specCount 2 b x y (-1) 1 + 1 <;>
    simp [hT1, hT2, hT3, hT4]

/-- C5 witness: on a board with a single stone at the origin, every
directional count is below the cap, the four-axis check returns a
boolean, and no win is declared. -/
theorem C5_witness :
    check_five 2 Fix.sgOneStone 0 0 1 0 = Res.ok false ∧
    check_five_dirs 2 Fix.sgOneStone 0 0 = Res.ok false := by
  have h := C5_amended_check_five Fix.sgOneStone 0 0 (by decide) (by decide) (by decide)
  constructor
  · rw [h.1]
    decide
  · rw [h.2.2.2.2 (by decide)]
    decide

end Celer
